import Mathlib

/-!
Verification development for the contact-form submission service
(`src/server.js`, current variant, and the earlier `/fill-form` variant).

The JavaScript code is embedded shallowly:

* Browser automation (Playwright) is an external collaborator; it is modelled
  by an oracle structure `PageEnv` giving the outcome of every DOM
  interaction the code can perform (element lookups, fills, clicks,
  navigation, screenshots, ...).  Each outcome is `Except String _` so that a
  throwing call is representable.
* Every handler/helper is a pure Lean function from the oracle (and the
  request) to its result together with the trace (`List Evt`) of browser
  actions it performed, in order.  `try`/`catch` blocks of the source become
  explicit `match`es on the `Except` values.
* `safeUrl` delegates to the WHATWG `URL` constructor.  That constructor is
  modelled for a documented fragment of URL syntax (lower-case `http`/`https`
  authority URLs without user-info, ports, percent-escapes or dot-segments);
  inputs outside the fragment are conservatively treated as unresolvable
  (`none`) rather than being given a possibly-wrong resolution.
-/

/-! ### JavaScript value helpers -/

/-- Coerce an optional string the way JS coerces `undefined` in `x || ""`. -/
def jsStr (v : Option String) : String := v.getD ""

/-- JS falsiness of a string-or-undefined value: `undefined` and `""` are falsy. -/
def jsFalsy (v : Option String) : Bool :=
  match v with
  | none => true
  | some s => s == ""

/-- JS truthiness test used by `if (!url)`-style guards. -/
def truthy (v : Option String) : Bool := !(jsFalsy v)

/-- JS `v || d` for a string-or-undefined `v` and a string default `d`. -/
def jsOr (v : Option String) (d : String) : String := if jsFalsy v then d else jsStr v

/-- Equality of fallible results is decidable (used to evaluate the model on
concrete oracles). -/
instance {ε α : Type} [DecidableEq ε] [DecidableEq α] : DecidableEq (Except ε α) := fun x y =>
  match x, y with
  | Except.ok a, Except.ok b =>
    if h : a = b then isTrue (by rw [h]) else isFalse (by intro hh; cases hh; exact h rfl)
  | Except.error a, Except.error b =>
    if h : a = b then isTrue (by rw [h]) else isFalse (by intro hh; cases hh; exact h rfl)
  | Except.ok _, Except.error _ => isFalse (by intro hh; cases hh)
  | Except.error _, Except.ok _ => isFalse (by intro hh; cases hh)

/-! ### URL model (fragment of the WHATWG URL constructor used by `safeUrl`) -/

/-- Lower-case ASCII letter. -/
def isLowAl (c : Char) : Bool := 97 ≤ c.toNat && c.toNat ≤ 122

/-- Upper-case ASCII letter. -/
def isUpAl (c : Char) : Bool := 65 ≤ c.toNat && c.toNat ≤ 90

/-- ASCII digit. -/
def isDigitCh (c : Char) : Bool := 48 ≤ c.toNat && c.toNat ≤ 57

/-- ASCII lower-casing of one character (the case folding JS `/i` performs on
the ASCII phrases and patterns used by this service). -/
def lowerCh (c : Char) : Char := if isUpAl c then Char.ofNat (c.toNat + 32) else c

/-- ASCII lower-casing of a character list. -/
def lowerL (l : List Char) : List Char := l.map lowerCh

/-- Characters the model accepts in a host (already lower-case). -/
def hostChar (c : Char) : Bool := isLowAl c || isDigitCh c || c == '.' || c == '-'

/-- Characters the model accepts in a path. -/
def pathChar (c : Char) : Bool :=
  isLowAl c || isUpAl c || isDigitCh c || c == '/' || c == '.' || c == '-' || c == '_' || c == '~'

/-- Characters the model accepts in a query or fragment. -/
def qfChar (c : Char) : Bool := pathChar c || c == '?' || c == '=' || c == '&'

/-- Characters that may appear in a scheme (used to recognise scheme-shaped hrefs). -/
def schemeLikeChar (c : Char) : Bool :=
  isLowAl c || isUpAl c || isDigitCh c || c == '+' || c == '-' || c == '.'

/-- Split a character list at the first occurrence of `c` (excluded). -/
def splitAtChar (c : Char) : List Char → Option (List Char × List Char)
  | [] => none
  | x :: xs =>
    if x = c then some ([], xs)
    else
      match splitAtChar c xs with
      | none => none
      | some p => some (x :: p.1, p.2)

/-- Split a path into its `/`-separated segments. -/
def splitSeg : List Char → List (List Char)
  | [] => [[]]
  | c :: rest =>
    if c = '/' then [] :: splitSeg rest
    else
      match splitSeg rest with
      | [] => [[c]]
      | s :: ss => (c :: s) :: ss

/-- A path is in the modelled fragment only when it has no `.`/`..` segments
(the real URL parser would rewrite those; the model refuses them instead). -/
def noDots (p : List Char) : Bool :=
  (splitSeg p).all fun seg => !(seg == ['.']) && !(seg == ['.', '.'])

/-- Parsed absolute URL record (scheme, host, non-empty path, optional query
and fragment), the model of a WHATWG URL object for the supported fragment. -/
structure URLRec where
  scheme : List Char
  host : List Char
  path : List Char
  query : Option (List Char)
  fragment : Option (List Char)
deriving DecidableEq, Repr

/-- Normalisation of a parsed path: an empty path serialises as `/`. -/
def normPath (p : List Char) : List Char := if p = [] then ['/'] else p

/-- The query/fragment tail of the absolute-URL parser, applied once scheme,
host and (normalised) path have been consumed. -/
def parseQF (sch host pathN : List Char) : List Char → Option URLRec
  | [] => some ⟨sch, host, pathN, none, none⟩
  | '?' :: r5 =>
    (match r5.dropWhile qfChar with
     | [] => some ⟨sch, host, pathN, some (r5.takeWhile qfChar), none⟩
     | '#' :: f =>
       if f.all qfChar then some ⟨sch, host, pathN, some (r5.takeWhile qfChar), some f⟩
       else none
     | _ => none)
  | '#' :: f => if f.all qfChar then some ⟨sch, host, pathN, none, some f⟩ else none
  | _ => none

/-- Host, then path, then query/fragment of an authority-form URL body.
Mirrors the basic URL parser: an empty path serialises as `/` (the
normalisation `safeUrl` inherits from `new URL(...)`); anything outside the
modelled fragment is `none`. -/
def parseHostPath (sch rest2 : List Char) : Option URLRec :=
  if rest2.takeWhile hostChar = [] then none
  else
    if (rest2.dropWhile hostChar).takeWhile pathChar = [] ∨
        ((rest2.dropWhile hostChar).takeWhile pathChar).head? = some '/' then
      if noDots (normPath ((rest2.dropWhile hostChar).takeWhile pathChar)) then
        parseQF sch (rest2.takeWhile hostChar)
          (normPath ((rest2.dropWhile hostChar).takeWhile pathChar))
          ((rest2.dropWhile hostChar).dropWhile pathChar)
      else none
    else none

/-- After the scheme: require `//` and parse the authority form
(host, then path, then query/fragment). -/
def parseAuthority (sch : List Char) : List Char → Option URLRec
  | '/' :: '/' :: rest2 => parseHostPath sch rest2
  | _ => none

/-- Scheme gate: the modelled fragment covers the special web schemes
`http` and `https` only. -/
def parseAfterScheme (sch rest : List Char) : Option URLRec :=
  if sch = "http".toList ∨ sch = "https".toList then parseAuthority sch rest else none

def parseAbsL (cs : List Char) : Option URLRec :=
  match splitAtChar ':' cs with
  | none => none
  | some (sch, rest) => parseAfterScheme sch rest

/-- Serialise a URL record back to characters (the `.href` read-out). -/
def serializeL (u : URLRec) : List Char :=
  u.scheme ++ ':' :: '/' :: '/' :: u.host ++ u.path ++
    (match u.query with | none => [] | some q => '?' :: q) ++
    (match u.fragment with | none => [] | some f => '#' :: f)

/-- Serialise a URL record to a string. -/
def serializeStr (u : URLRec) : String := String.mk (serializeL u)

/-- Well-formedness invariant of records produced by `parseAbsL`. -/
def WFurl (u : URLRec) : Bool :=
  (u.scheme == "http".toList || u.scheme == "https".toList) &&
  !(u.host == []) && u.host.all hostChar &&
  (u.path.head? == some '/') && u.path.all pathChar && noDots u.path &&
  (match u.query with | none => true | some q => q.all qfChar) &&
  (match u.fragment with | none => true | some f => f.all qfChar)

/-- Does the href start with a scheme followed by `:` (so it is not relative)? -/
def hasSchemeShape (cs : List Char) : Bool :=
  match splitAtChar ':' cs with
  | none => false
  | some (sch, _) =>
    match sch with
    | [] => false
    | c :: rest => (isLowAl c || isUpAl c) && (c :: rest).all schemeLikeChar

/-- The directory part of a path: everything up to and including the last `/`. -/
def dirnamePath (p : List Char) : List Char :=
  (p.reverse.dropWhile (fun c => !(c == '/'))).reverse

/-- Reassemble a relative href against a parsed base into one absolute URL
string, following the WHATWG resolution cases (protocol-relative,
path-absolute, query-only, fragment-only, relative path). -/
def reassemble (b : URLRec) (cs : List Char) : List Char :=
  match cs with
  | [] => serializeL { b with fragment := none }
  | '/' :: '/' :: _ => b.scheme ++ ':' :: cs
  | '/' :: _ => b.scheme ++ ':' :: '/' :: '/' :: b.host ++ cs
  | '?' :: _ => b.scheme ++ ':' :: '/' :: '/' :: b.host ++ b.path ++ cs
  | '#' :: _ => serializeL { b with fragment := none } ++ cs
  | _ => b.scheme ++ ':' :: '/' :: '/' :: b.host ++ dirnamePath b.path ++ cs

/-- Resolve an href against a parsed base: absolute hrefs stand alone,
scheme-shaped but unparsable hrefs fail, anything else is joined to the base
and re-parsed. -/
def resolveCore (b : URLRec) (cs : List Char) : Option URLRec :=
  match parseAbsL cs with
  | some u => some u
  | none => if hasSchemeShape cs then none else parseAbsL (reassemble b cs)

/-- Model of `safeUrl` (src/server.js lines 11-17): `new URL(href, base).href`
with `try`/`catch` returning `null`.  The URL constructor parses the base
first and throws if it is invalid, even for an absolute href; the model does
the same.  Total by construction: the `catch` arm is the `none` result. -/
def safeUrl (base href : String) : Option String :=
  match parseAbsL base.toList with
  | none => none
  | some b => (resolveCore b href.toList).map serializeStr

/-! ### Browser-action traces and the capability oracle -/

/-- One observable browser interaction performed by the service. -/
inductive Evt where
  | launch : Evt
  | newContext : Evt
  | newPage : Evt
  | setUserAgent (ua : String) : Evt
  | gotoMain (url : String) : Evt
  | gotoNav (url : String) : Evt
  | query (sel : String) : Evt
  | getAttr (el : Nat) (attr : String) : Evt
  | evalAnchors : Evt
  | fillAction (el : Nat) (value : String) : Evt
  | typeInto (el : Nat) (value : Option String) (delay : Nat) : Evt
  | click (el : Nat) : Evt
  | pressEnter : Evt
  | waitMs (ms : Nat) : Evt
  | getContent : Evt
  | screenshot : Evt
  | closeBrowser : Evt
  | waitForSel (sel : String) : Evt
deriving DecidableEq, Repr

/-- A JSON HTTP response.  `none` on an optional field means the key is
absent from the JSON body; `some none` on `reason`/`screenshot` means the key
is present with value `null`. -/
structure HttpResp where
  status : Nat := 200
  success : Option Bool := none
  captcha : Option Bool := none
  clicked : Option Bool := none
  reason : Option (Option String) := none
  screenshot : Option (Option String) := none
  error : Option String := none
  message : Option String := none
  url : Option String := none
  timestamp : Option String := none
deriving DecidableEq, Repr

/-- A request body: `none` is an absent (`undefined`) key. -/
structure SubmitReq where
  url : Option String := none
  name : Option String := none
  email : Option String := none
  message : Option String := none
  phone : Option String := none
  company : Option String := none
deriving DecidableEq, Repr

/-- The `data` object handed to `fillHeuristics`. -/
structure FillInput where
  name : Option String := none
  email : Option String := none
  message : Option String := none
  phone : Option String := none
  company : Option String := none
deriving DecidableEq, Repr

/-- The `typed` record built by `fillHeuristics`. -/
structure FillFlags where
  name : Bool := false
  email : Bool := false
  phone : Bool := false
  message : Bool := false
  company : Bool := false
deriving DecidableEq, Repr

/-- Oracle for the browser collaborator: the outcome of each capability call
the handlers can make.  An `Except.error m` models the call throwing with
message `m`.  The page is treated as one static oracle per request; the
claims verified here only depend on which calls are made and on their
outcomes, not on DOM mutation between calls. -/
structure PageEnv where
  launchRes : Except String Unit
  newContextRes : Except String Unit
  newPageRes : Except String Unit
  setUserAgentRes : Except String Unit
  gotoMainRes : String → Except String Unit
  waitForSelRes : Except String Unit
  queryRes : String → Except String (Option Nat)
  getAttributeRes : Nat → Except String (Option String)
  anchorsRes : Except String (List (String × String))
  fillRes : Nat → String → Except String Unit
  typeRes : Nat → Option String → Except String Unit
  clickRes : Nat → Except String Unit
  pressEnterRes : Except String Unit
  contentRes : Except String String
  screenshotRes : Except String String
  closeRes : Except String Unit
  nowStr : String

/-- Prefix a trace onto a result-trace pair. -/
def prependActs {α : Type} (acts : List Evt) (p : α × List Evt) : α × List Evt :=
  (p.1, acts ++ p.2)

/-- Sequence one fallible call (with the trace `acts` it contributes) before
the rest of a pipeline; a throw stops the pipeline, keeping the trace so far. -/
def stepE {α β : Type} (r : Except String α) (acts : List Evt)
    (k : α → Except String β × List Evt) : Except String β × List Evt :=
  match r with
  | Except.error m => (Except.error m, acts)
  | Except.ok a => ((k a).1, acts ++ (k a).2)

/-- Did `r` succeed? -/
def isOkE {α : Type} (r : Except String α) : Bool :=
  match r with
  | Except.ok _ => true
  | Except.error _ => false

/-- Does `page.$(s)` fail to produce an element (no match, or the lookup
threw and was swallowed)? -/
def notFoundSel (env : PageEnv) (s : String) : Bool :=
  match env.queryRes s with
  | Except.ok none => true
  | Except.error _ => true
  | Except.ok (some _) => false

/-- Does `needle` occur as a contiguous subsequence of the second list? -/
def containsSeq (needle : List Char) : List Char → Bool
  | [] => needle == []
  | c :: rest => needle.isPrefixOf (c :: rest) || containsSeq needle rest

/-- Case-insensitive substring test, the model of `/pat/i.test(s)`. -/
def containsCI (s pat : String) : Bool := containsSeq (lowerL pat.toList) (lowerL s.toList)

/-! ### Embedding of `src/server.js` -/

/-- Source line 9: fallback user agent (the `DEFAULT_USER_AGENT` environment
override is process configuration outside the model). -/
def defaultUserAgent : String := "Mozilla/5.0 (Windows NT 10.0; Win64; x64)"

/-- Source lines 21-31: ordered anchor patterns of `tryNavigateToContact`
(including the duplicated `contact-us` entry of the source). -/
def contactPatterns : List String :=
  ["a[href*=\"contact\"]", "a[href*=\"Contact\"]", "a:has-text(\"Contact\")",
   "a:has-text(\"Contact Us\")", "a:has-text(\"Get in touch\")",
   "a[href*=\"contact-us\"]", "a[href*=\"contact-us\"]",
   "a[href^=\"/contact\"]", "a[href^=\"#contact\"]"]

/-- Source lines 33-49: the pattern loop of `tryNavigateToContact`.  Each
iteration is wrapped in `try`/`catch`, so lookup and attribute errors fall
through to the next pattern; `page.goto(target).catch(()=>null)` swallows
navigation errors, so a resolvable href always ends the loop with `true`. -/
def contactLoop (env : PageEnv) (baseUrl : String) : List String → Bool × List Evt
  | [] => (false, [])
  | sel :: rest =>
    match env.queryRes sel with
    | Except.error _ => prependActs [Evt.query sel] (contactLoop env baseUrl rest)
    | Except.ok none => prependActs [Evt.query sel] (contactLoop env baseUrl rest)
    | Except.ok (some el) =>
      match env.getAttributeRes el with
      | Except.error _ =>
        prependActs [Evt.query sel, Evt.getAttr el "href"] (contactLoop env baseUrl rest)
      | Except.ok none =>
        prependActs [Evt.query sel, Evt.getAttr el "href"] (contactLoop env baseUrl rest)
      | Except.ok (some href) =>
        if jsFalsy (some href) then
          prependActs [Evt.query sel, Evt.getAttr el "href"] (contactLoop env baseUrl rest)
        else
          match safeUrl baseUrl href with
          | none =>
            prependActs [Evt.query sel, Evt.getAttr el "href"] (contactLoop env baseUrl rest)
          | some target => (true, [Evt.query sel, Evt.getAttr el "href", Evt.gotoNav target])

/-- Source lines 52-63: scan of all anchors (`$$eval` yields pairs of the
resolved `href` property and the inner text). -/
def anchorLoop (baseUrl : String) : List (String × String) → Bool × List Evt
  | [] => (false, [])
  | (href, text) :: rest =>
    if href == "" then anchorLoop baseUrl rest
    else if containsCI text "contact" || containsCI href "contact" then
      match safeUrl baseUrl href with
      | some target => (true, [Evt.gotoNav target])
      | none => anchorLoop baseUrl rest
    else anchorLoop baseUrl rest

/-- Source lines 52-64: the anchor-scan fallback, with its own `try`/`catch`
around the `$$eval`. -/
def anchorScan (env : PageEnv) (baseUrl : String) : Bool × List Evt :=
  match env.anchorsRes with
  | Except.error _ => (false, [Evt.evalAnchors])
  | Except.ok anchors => prependActs [Evt.evalAnchors] (anchorLoop baseUrl anchors)

/-- Source lines 19-67: `tryNavigateToContact`. -/
def tryNavigateToContact (env : PageEnv) (baseUrl : String) : Bool × List Evt :=
  let l := contactLoop env baseUrl contactPatterns
  if l.1 then l
  else
    let s := anchorScan env baseUrl
    (s.1, l.2 ++ s.2)

/-- Source lines 72-75. -/
def nameSelectors : List String :=
  ["input[name*=name i]", "input[id*=name i]", "input[placeholder*=name i]",
   "input[aria-label*=name i]", "input[placeholder*=\"Full Name\"]"]

/-- Source lines 76-78. -/
def emailSelectors : List String :=
  ["input[type=\"email\"]", "input[name*=email i]", "input[id*=email i]",
   "input[placeholder*=email i]"]

/-- Source lines 79-81. -/
def phoneSelectors : List String :=
  ["input[name*=phone i]", "input[id*=phone i]", "input[placeholder*=phone i]",
   "input[type=tel]"]

/-- Source lines 82-85. -/
def messageSelectors : List String :=
  ["textarea[name*=message i]", "textarea[id*=message i]",
   "textarea[placeholder*=message i]", "textarea[aria-label*=message i]"]

/-- Source lines 86-88. -/
def companySelectors : List String :=
  ["input[name*=company i]", "input[id*=company i]", "input[placeholder*=company i]"]

/-- Source lines 94-105: the selector loop of `tryFillList`.  On the first
existing element it clears (`el.fill('')`) and types the value with a 20 ms
inter-key delay (`el.type(value, {delay: 20})`); any error inside the `try`
is swallowed and the next candidate is tried. -/
def tryFillGo (env : PageEnv) (value : Option String) : List String → Bool × List Evt
  | [] => (false, [])
  | sel :: rest =>
    match env.queryRes sel with
    | Except.error _ => prependActs [Evt.query sel] (tryFillGo env value rest)
    | Except.ok none => prependActs [Evt.query sel] (tryFillGo env value rest)
    | Except.ok (some el) =>
      match env.fillRes el "" with
      | Except.error _ =>
        prependActs [Evt.query sel, Evt.fillAction el ""] (tryFillGo env value rest)
      | Except.ok _ =>
        match env.typeRes el value with
        | Except.error _ =>
          prependActs [Evt.query sel, Evt.fillAction el "", Evt.typeInto el value 20]
            (tryFillGo env value rest)
        | Except.ok _ => (true, [Evt.query sel, Evt.fillAction el "", Evt.typeInto el value 20])

/-- Source lines 92-106: `tryFillList` — a falsy value is skipped outright. -/
def tryFillList (env : PageEnv) (selectors : List String) (value : Option String) :
    Bool × List Evt :=
  if jsFalsy value then (false, []) else tryFillGo env value selectors

/-- Source lines 108-112: the five `tryFillList` calls in their fixed order
email, name, message, phone, company; phone and company values pass through
`data.phone || ''` / `data.company || ''`. -/
def fillMain (env : PageEnv) (data : FillInput) : FillFlags × List Evt :=
  let e := tryFillList env emailSelectors data.email
  let n := tryFillList env nameSelectors data.name
  let m := tryFillList env messageSelectors data.message
  let p := tryFillList env phoneSelectors (some (jsStr data.phone))
  let c := tryFillList env companySelectors (some (jsStr data.company))
  ({ email := e.1, name := n.1, message := m.1, phone := p.1, company := c.1 },
   e.2 ++ n.2 ++ m.2 ++ p.2 ++ c.2)

/-- Source lines 69-123: `fillHeuristics`.  The fallback (lines 114-120) runs
whenever `typed.message` is false: the `page.$('textarea')` lookup there is
not inside any `try`, so its error aborts the whole handler, while the
`type` attempt on a found textarea swallows its own errors. -/
def fillHeuristics (env : PageEnv) (data : FillInput) : Except String FillFlags × List Evt :=
  let main := fillMain env data
  if main.1.message then (Except.ok main.1, main.2)
  else
    match env.queryRes "textarea" with
    | Except.error m => (Except.error m, main.2 ++ [Evt.query "textarea"])
    | Except.ok none => (Except.ok main.1, main.2 ++ [Evt.query "textarea"])
    | Except.ok (some el) =>
      match env.typeRes el data.message with
      | Except.ok _ =>
        ({ main.1 with message := true } |> Except.ok,
         main.2 ++ [Evt.query "textarea", Evt.typeInto el data.message 20])
      | Except.error _ =>
        (Except.ok main.1, main.2 ++ [Evt.query "textarea", Evt.typeInto el data.message 20])

/-- Source lines 126-129: the submit-selector list, in source order. -/
def submitSelectors : List String :=
  ["button[type=submit]", "input[type=submit]", "button:has-text(\"Send\")",
   "button:has-text(\"Submit\")", "button:has-text(\"Send Message\")",
   "button:has-text(\"Contact Us\")"]

/-- Source lines 130-141: the selector loop of `clickSubmit`.  On the first
existing element the click (its errors swallowed by `.catch(()=>{})`) runs
concurrently with a fixed 2500 ms wait and the loop returns `true`. -/
def clickLoop (env : PageEnv) : List String → Bool × List Evt
  | [] => (false, [])
  | sel :: rest =>
    match env.queryRes sel with
    | Except.error _ => prependActs [Evt.query sel] (clickLoop env rest)
    | Except.ok none => prependActs [Evt.query sel] (clickLoop env rest)
    | Except.ok (some el) => (true, [Evt.query sel, Evt.click el, Evt.waitMs 2500])

/-- Source lines 125-149: `clickSubmit`.  If no selector matched, press
Enter and wait 1500 ms, returning `true`; if the key press itself throws,
the `catch` swallows it and `false` is returned. -/
def clickSubmit (env : PageEnv) : Bool × List Evt :=
  let l := clickLoop env submitSelectors
  if l.1 then l
  else
    match env.pressEnterRes with
    | Except.ok _ => (true, l.2 ++ [Evt.pressEnter, Evt.waitMs 1500])
    | Except.error _ => (false, l.2 ++ [Evt.pressEnter])

/-- Source line 173: the combined CAPTCHA selector. -/
def captchaSelector : String := "iframe[src*=\"recaptcha\"], .h-captcha, .g-recaptcha"

/-- Source line 186: the success-phrase alternation, tested case-insensitively
against the rendered page content. -/
def successPhrases : List String :=
  ["thank you", "we received your message", "message sent", "thanks for contacting",
   "we will contact you"]

/-- Source line 186: `/.../i.test(html)`. -/
def matchesSuccess (html : String) : Bool :=
  successPhrases.any fun p => containsSeq p.toList (lowerL html.toList)

/-- Source line 170: the object literal `{ name, email, message }` — the
request phone and company values are not forwarded. -/
def mkFillInput (req : SubmitReq) : FillInput :=
  { name := req.name, email := req.email, message := req.message,
    phone := none, company := none }

/-- Source lines 172-195: CAPTCHA check, submit, settle wait, content
classification, screenshot-on-failure, close, respond. -/
def classifyAndRespond (env : PageEnv) : Except String HttpResp × List Evt :=
  stepE (env.queryRes captchaSelector) [Evt.query captchaSelector] fun captchaEl =>
  if captchaEl.isSome then
    stepE env.screenshotRes [Evt.screenshot] fun shot =>
    stepE env.closeRes [Evt.closeBrowser] fun _ =>
    (Except.ok { status := 200, success := some false, captcha := some true,
                 reason := some (some "captcha detected"), screenshot := some (some shot) }, [])
  else
    let cl := clickSubmit env
    stepE env.contentRes (cl.2 ++ [Evt.waitMs 2000, Evt.getContent]) fun html =>
    if matchesSuccess html then
      stepE env.closeRes [Evt.closeBrowser] fun _ =>
      (Except.ok { status := 200, success := some true, captcha := some false,
                   clicked := some cl.1, reason := some none, screenshot := some none }, [])
    else
      stepE env.screenshotRes [Evt.screenshot] fun shot =>
      stepE env.closeRes [Evt.closeBrowser] fun _ =>
      (Except.ok { status := 200, success := some false, captcha := some false,
                   clicked := some cl.1, reason := some (some "no success message"),
                   screenshot := some (some shot) }, [])

/-- Source lines 169-195: fill step followed by classification. -/
def afterContact (env : PageEnv) (data : FillInput) : Except String HttpResp × List Evt :=
  stepE (fillHeuristics env data).1 (fillHeuristics env data).2 fun _ =>
  classifyAndRespond env

/-- Source lines 156-195: the `try` block of the `/submit` handler.  The
second `page.$('form')` result is assigned but never used afterwards, as in
the source. -/
def submitPipeline (env : PageEnv) (url : String) (data : FillInput) :
    Except String HttpResp × List Evt :=
  stepE env.launchRes [Evt.launch] fun _ =>
  stepE env.newPageRes [Evt.newPage] fun _ =>
  stepE env.setUserAgentRes [Evt.setUserAgent defaultUserAgent] fun _ =>
  stepE (env.gotoMainRes url) [Evt.gotoMain url] fun _ =>
  stepE (env.queryRes "form") [Evt.query "form"] fun foundForm =>
  if foundForm.isSome then afterContact env data
  else
    stepE (env.queryRes "form") ((tryNavigateToContact env url).2 ++ [Evt.query "form"]) fun _ =>
    afterContact env data

/-- Source lines 151-201: the `POST /submit` handler.  Missing/empty `url`
returns 400 before any browser work; the `catch` closes the browser when it
was launched (`if (browser)`), swallowing close errors, and responds 500 with
the thrown message. -/
def submitHandler (env : PageEnv) (req : SubmitReq) : HttpResp × List Evt :=
  if truthy req.url then
    match submitPipeline env (jsStr req.url) (mkFillInput req) with
    | (Except.ok resp, tr) => (resp, tr)
    | (Except.error m, tr) =>
      ({ status := 500, success := some false, reason := some (some m) },
       tr ++ (if isOkE env.launchRes then [Evt.closeBrowser] else []))
  else ({ status := 400, success := some false, reason := some (some "missing url") }, [])

/-! ### Embedding of the earlier `/fill-form` variant (src/unnamed/part_000) -/

/-- part_000 lines 40-45. -/
def ffNameSelectors : List String :=
  ["input[name*=\"name\" i]", "input[placeholder*=\"name\" i]", "input[id*=\"name\" i]",
   "input[type=\"text\"]"]

/-- part_000 lines 61-65. -/
def ffEmailSelectors : List String :=
  ["input[type=\"email\"]", "input[name*=\"email\" i]", "input[placeholder*=\"email\" i]"]

/-- part_000 lines 81-86. -/
def ffMessageSelectors : List String :=
  ["textarea", "input[name*=\"message\" i]", "input[placeholder*=\"message\" i]",
   "textarea[name*=\"comment\" i]"]

/-- part_000 lines 107-114. -/
def ffSubmitSelectors : List String :=
  ["button[type=\"submit\"]", "input[type=\"submit\"]", "button:has-text(\"Send\")",
   "button:has-text(\"Submit\")", "button:has-text(\"Contact\")", "button"]

/-- part_000 line 37. -/
def ffWaitSelector : String := "form, input[type=\"email\"], textarea"

/-- part_000 line 51 default. -/
def ffDefaultName : String := "Alex – HVAC Tools"

/-- part_000 line 71 default. -/
def ffDefaultEmail : String := "alex@yourdomain.com"

/-- part_000 lines 88-91 default. -/
def ffDefaultMessage : String :=
  "Hi, saw your 4.2 stars in Austin and your \"24/7 Emergency\" banner.\nOne local shop recovered $1,200 from missed calls last week with our $350 automation.\n7-day free trial on your number? Reply YES.\nAlex"

/-- part_000 fill loops (lines 47-58, 67-78, 93-104): first existing element
gets `field.fill(value)` and the loop breaks; a throwing fill is caught and
the next selector is tried. -/
def ffFillLoop (env : PageEnv) (value : String) : List String → List Evt
  | [] => []
  | sel :: rest =>
    match env.queryRes sel with
    | Except.error _ => Evt.query sel :: ffFillLoop env value rest
    | Except.ok none => Evt.query sel :: ffFillLoop env value rest
    | Except.ok (some el) =>
      match env.fillRes el value with
      | Except.error _ => Evt.query sel :: Evt.fillAction el value :: ffFillLoop env value rest
      | Except.ok _ => [Evt.query sel, Evt.fillAction el value]

/-- part_000 lines 116-127: the submit loop; a throwing click is caught and
the next selector is tried. -/
def ffSubmitLoop (env : PageEnv) : List String → List Evt
  | [] => []
  | sel :: rest =>
    match env.queryRes sel with
    | Except.error _ => Evt.query sel :: ffSubmitLoop env rest
    | Except.ok none => Evt.query sel :: ffSubmitLoop env rest
    | Except.ok (some el) =>
      match env.clickRes el with
      | Except.error _ => Evt.query sel :: Evt.click el :: ffSubmitLoop env rest
      | Except.ok _ => [Evt.query sel, Evt.click el]

/-- part_000 lines 22-142: the `try` block of the `/fill-form` handler.
After navigation and `waitForSelector` succeed, the loops never throw; the
screenshot (line 133) and close (line 135) may still throw into the catch.
The successful response is unconditional: no CAPTCHA lookup, no page-content
read. -/
def fillFormPipeline (env : PageEnv) (url : String) (req : SubmitReq) :
    Except String HttpResp × List Evt :=
  stepE env.launchRes [Evt.launch] fun _ =>
  stepE env.newContextRes [Evt.newContext] fun _ =>
  stepE env.newPageRes [Evt.newPage] fun _ =>
  stepE (env.gotoMainRes url) [Evt.gotoMain url] fun _ =>
  stepE env.waitForSelRes [Evt.waitForSel ffWaitSelector] fun _ =>
  stepE env.screenshotRes
    (ffFillLoop env (jsOr req.name ffDefaultName) ffNameSelectors ++
     ffFillLoop env (jsOr req.email ffDefaultEmail) ffEmailSelectors ++
     ffFillLoop env (jsOr req.message ffDefaultMessage) ffMessageSelectors ++
     ffSubmitLoop env ffSubmitSelectors ++ [Evt.waitMs 3000, Evt.screenshot]) fun _ =>
  stepE env.closeRes [Evt.closeBrowser] fun _ =>
  (Except.ok { status := 200, success := some true, url := some url,
               timestamp := some env.nowStr, message := some "Form submitted successfully" }, [])

/-- part_000 lines 14-158: the `POST /fill-form` handler.  Missing `url`
returns 400 `{error: 'URL is required'}`.  In the catch, `await
browser.close()` is not itself guarded, so a throwing close leaves the
request without a response (modelled as `none`). -/
def fillFormHandler (env : PageEnv) (req : SubmitReq) : Option HttpResp × List Evt :=
  if truthy req.url then
    match fillFormPipeline env (jsStr req.url) req with
    | (Except.ok resp, tr) => (some resp, tr)
    | (Except.error m, tr) =>
      if isOkE env.launchRes then
        match env.closeRes with
        | Except.ok _ =>
          (some { status := 500, success := some false, error := some m,
                  url := some (jsStr req.url), timestamp := some env.nowStr },
           tr ++ [Evt.closeBrowser])
        | Except.error _ => (none, tr ++ [Evt.closeBrowser])
      else
        (some { status := 500, success := some false, error := some m,
                url := some (jsStr req.url), timestamp := some env.nowStr }, tr)
  else (some { status := 400, error := some "URL is required" }, [])

/-! ### Predicates on traces -/

/-- An action belonging to the Submission Trigger: a lookup of one of the
submit selectors, a click, or an Enter key press. -/
def isSubmitEvt (a : Evt) : Bool :=
  match a with
  | Evt.query s => submitSelectors.contains s
  | Evt.click _ => true
  | Evt.pressEnter => true
  | _ => false

/-- Any trace evidence of the phone or company field being attempted with the
concrete values used in the C5 failing input. -/
def isPhoneCompanyTouch (a : Evt) : Bool :=
  match a with
  | Evt.query s => phoneSelectors.contains s || companySelectors.contains s
  | Evt.typeInto _ v _ => v == some "555-1234" || v == some "Acme"
  | Evt.fillAction _ v => v == "555-1234" || v == "Acme"
  | _ => false

/-! ### Concrete oracles and requests used as witnesses and counterexamples -/

/-- A page oracle on which every capability call succeeds and no element
matches any selector. -/
def envAllOk : PageEnv :=
  { launchRes := Except.ok (), newContextRes := Except.ok (), newPageRes := Except.ok (),
    setUserAgentRes := Except.ok (), gotoMainRes := fun _ => Except.ok (),
    waitForSelRes := Except.ok (), queryRes := fun _ => Except.ok none,
    getAttributeRes := fun _ => Except.ok none, anchorsRes := Except.ok [],
    fillRes := fun _ _ => Except.ok (), typeRes := fun _ _ => Except.ok (),
    clickRes := fun _ => Except.ok (), pressEnterRes := Except.ok (),
    contentRes := Except.ok "", screenshotRes := Except.ok "img",
    closeRes := Except.ok (), nowStr := "t0" }

/-- A minimal valid request. -/
def reqBasic : SubmitReq := { url := some "http://example.com/" }

/-- A request with no url at all. -/
def reqNoUrl : SubmitReq := {}

/-- Oracle for the C1 witness: a form and CAPTCHA markup are present. -/
def envC1 : PageEnv :=
  { envAllOk with
    queryRes := fun s =>
      if s == "form" then Except.ok (some 1)
      else if s == captchaSelector then Except.ok (some 3)
      else Except.ok none }

/-- Oracle for the C2 counterexample: every step succeeds, no CAPTCHA, and
the rendered content contains "we received" but no phrase of the code's
actual alternation. -/
def envC2 : PageEnv :=
  { envAllOk with
    queryRes := fun s => if s == "form" then Except.ok (some 1) else Except.ok none,
    contentRes := Except.ok "We received a phone call" }

/-- Oracle for the C2 witness: like `envC2` but with content matching the
code's alternation. -/
def envC2b : PageEnv :=
  { envC2 with contentRes := Except.ok "OK - We received your message today" }

/-- Oracle for the C5 failing input: the page has a form, a `tel` input and a
company input, so the phone/company candidate lists would match. -/
def envC5 : PageEnv :=
  { envAllOk with
    queryRes := fun s =>
      if s == "form" then Except.ok (some 1)
      else if s == "input[type=tel]" then Except.ok (some 5)
      else if s == "input[name*=company i]" then Except.ok (some 6)
      else Except.ok none }

/-- The C5 failing input: a valid url plus non-empty phone and company. -/
def reqC5 : SubmitReq :=
  { url := some "http://example.com/", phone := some "555-1234", company := some "Acme" }

/-- Oracle for the C6 counterexample: a bare textarea exists, and typing an
`undefined` value throws (as Playwright's `type` does). -/
def envC6 : PageEnv :=
  { envAllOk with
    queryRes := fun s => if s == "textarea" then Except.ok (some 9) else Except.ok none,
    typeRes := fun _ v => if v == none then Except.error "value: expected string" else Except.ok () }

/-- Fill input with no message at all (and nothing else). -/
def dataC6 : FillInput := {}

/-- Oracle for the C8 counterexample: no submit-type control and no button
whose text contains "Send"; one button matches the `Submit` text selector and
another matches the `Send Message` text selector. -/
def envC8 : PageEnv :=
  { envAllOk with
    queryRes := fun s =>
      if s == "button:has-text(\"Submit\")" then Except.ok (some 7)
      else if s == "button:has-text(\"Send Message\")" then Except.ok (some 8)
      else Except.ok none }

/-- Oracle for the C8 witness: the first submit selector matches element 2. -/
def envC8w : PageEnv :=
  { envAllOk with
    queryRes := fun s => if s == "button[type=submit]" then Except.ok (some 2) else Except.ok none }

/-- Oracle for the C9 witness: launch succeeds but navigation times out. -/
def envC9 : PageEnv :=
  { envAllOk with gotoMainRes := fun _ => Except.error "net::TIMEOUT at navigation" }

/-- Oracle for the C9 counterexample: launch succeeds, navigation times out,
and the browser close itself throws (disconnected browser).  On `/fill-form`
the catch performs an unguarded `await browser.close()`, so this leaves the
request without any response. -/
def envC9b : PageEnv :=
  { envAllOk with
    gotoMainRes := fun _ => Except.error "net::TIMEOUT at navigation",
    closeRes := Except.error "Target closed" }

/-- All field selector candidates of `fillHeuristics`, concatenated. -/
def fillSelectorsAll : List String :=
  emailSelectors ++ nameSelectors ++ messageSelectors ++ phoneSelectors ++ companySelectors

/-- Oracle for the C3 witness: of the two candidate selectors `selA`, `selB`,
only the second finds an element. -/
def envC3 : PageEnv :=
  { envAllOk with queryRes := fun s => if s == "selB" then Except.ok (some 4) else Except.ok none }

/-! ### Trace lemmas for the step combinator -/

theorem stepE_err {α β : Type} (m : String) (acts : List Evt)
    (k : α → Except String β × List Evt) :
    stepE (Except.error m) acts k = (Except.error m, acts) := rfl

theorem stepE_ok {α β : Type} (a : α) (acts : List Evt)
    (k : α → Except String β × List Evt) :
    stepE (Except.ok a) acts k = ((k a).1, acts ++ (k a).2) := rfl

theorem stepE_mem_acts {α β : Type} (x : Evt) (r : Except String α) (acts : List Evt)
    (k : α → Except String β × List Evt) (hx : x ∈ acts) : x ∈ (stepE r acts k).2 := by
  cases r with
  | error m => simpa [stepE] using hx
  | ok a => simp [stepE]; exact Or.inl hx

theorem stepE_mem_of {α β : Type} (x : Evt) (r : Except String α) (acts : List Evt)
    (k : α → Except String β × List Evt) (b : β) (hok : (stepE r acts k).1 = Except.ok b)
    (h : ∀ a, (k a).1 = Except.ok b → x ∈ (k a).2) : x ∈ (stepE r acts k).2 := by
  cases r with
  | error m => simp [stepE] at hok
  | ok a =>
    simp [stepE] at hok ⊢
    exact Or.inr (h a hok)

/-! ### Shape of the traces produced by the helper loops -/

theorem tryFillGo_shape (env : PageEnv) (v : Option String) :
    ∀ sels, ∀ a ∈ (tryFillGo env v sels).2,
      (∃ s, s ∈ sels ∧ a = Evt.query s) ∨ (∃ e w, a = Evt.fillAction e w) ∨
        (∃ e w d, a = Evt.typeInto e w d) := by
  intro sels
  induction sels with
  | nil => intro a ha; simp [tryFillGo] at ha
  | cons s rest ih =>
    intro a ha
    simp only [tryFillGo] at ha
    split at ha
    · simp [prependActs] at ha
      rcases ha with rfl | ha
      · exact Or.inl ⟨s, by simp, rfl⟩
      · rcases ih a ha with ⟨t, ht, rfl⟩ | h | h
        · exact Or.inl ⟨t, by simp [ht], rfl⟩
        · exact Or.inr (Or.inl h)
        · exact Or.inr (Or.inr h)
    · simp [prependActs] at ha
      rcases ha with rfl | ha
      · exact Or.inl ⟨s, by simp, rfl⟩
      · rcases ih a ha with ⟨t, ht, rfl⟩ | h | h
        · exact Or.inl ⟨t, by simp [ht], rfl⟩
        · exact Or.inr (Or.inl h)
        · exact Or.inr (Or.inr h)
    · rename_i el heq
      split at ha
      · simp [prependActs] at ha
        rcases ha with rfl | rfl | ha
        · exact Or.inl ⟨s, by simp, rfl⟩
        · exact Or.inr (Or.inl ⟨el, "", rfl⟩)
        · rcases ih a ha with ⟨t, ht, rfl⟩ | h | h
          · exact Or.inl ⟨t, by simp [ht], rfl⟩
          · exact Or.inr (Or.inl h)
          · exact Or.inr (Or.inr h)
      · split at ha
        · simp [prependActs] at ha
          rcases ha with rfl | rfl | rfl | ha
          · exact Or.inl ⟨s, by simp, rfl⟩
          · exact Or.inr (Or.inl ⟨el, "", rfl⟩)
          · exact Or.inr (Or.inr ⟨el, v, 20, rfl⟩)
          · rcases ih a ha with ⟨t, htt, rfl⟩ | h | h
            · exact Or.inl ⟨t, by simp [htt], rfl⟩
            · exact Or.inr (Or.inl h)
            · exact Or.inr (Or.inr h)
        · simp at ha
          rcases ha with rfl | rfl | rfl
          · exact Or.inl ⟨s, by simp, rfl⟩
          · exact Or.inr (Or.inl ⟨el, "", rfl⟩)
          · exact Or.inr (Or.inr ⟨el, v, 20, rfl⟩)

theorem tryFillList_shape (env : PageEnv) (sels : List String) (v : Option String) :
    ∀ a ∈ (tryFillList env sels v).2,
      (∃ s, s ∈ sels ∧ a = Evt.query s) ∨ (∃ e w, a = Evt.fillAction e w) ∨
        (∃ e w d, a = Evt.typeInto e w d) := by
  intro a ha
  unfold tryFillList at ha
  by_cases hv : jsFalsy v = true
  · simp [hv] at ha
  · rw [if_neg (by simpa using hv)] at ha
    exact tryFillGo_shape env v sels a ha

theorem fillMain_shape (env : PageEnv) (data : FillInput) :
    ∀ a ∈ (fillMain env data).2,
      (∃ s, s ∈ fillSelectorsAll ∧ a = Evt.query s) ∨ (∃ e w, a = Evt.fillAction e w) ∨
        (∃ e w d, a = Evt.typeInto e w d) := by
  intro a ha
  unfold fillMain at ha
  simp only [List.mem_append] at ha
  rcases ha with ((((h | h) | h) | h) | h)
  · rcases tryFillList_shape env emailSelectors data.email a h with ⟨s, hs, rfl⟩ | h2 | h2
    · exact Or.inl ⟨s, by simp [fillSelectorsAll, hs], rfl⟩
    · exact Or.inr (Or.inl h2)
    · exact Or.inr (Or.inr h2)
  · rcases tryFillList_shape env nameSelectors data.name a h with ⟨s, hs, rfl⟩ | h2 | h2
    · exact Or.inl ⟨s, by simp [fillSelectorsAll, hs], rfl⟩
    · exact Or.inr (Or.inl h2)
    · exact Or.inr (Or.inr h2)
  · rcases tryFillList_shape env messageSelectors data.message a h with ⟨s, hs, rfl⟩ | h2 | h2
    · exact Or.inl ⟨s, by simp [fillSelectorsAll, hs], rfl⟩
    · exact Or.inr (Or.inl h2)
    · exact Or.inr (Or.inr h2)
  · rcases tryFillList_shape env phoneSelectors (some (jsStr data.phone)) a h with ⟨s, hs, rfl⟩ | h2 | h2
    · exact Or.inl ⟨s, by simp [fillSelectorsAll, hs], rfl⟩
    · exact Or.inr (Or.inl h2)
    · exact Or.inr (Or.inr h2)
  · rcases tryFillList_shape env companySelectors (some (jsStr data.company)) a h with ⟨s, hs, rfl⟩ | h2 | h2
    · exact Or.inl ⟨s, by simp [fillSelectorsAll, hs], rfl⟩
    · exact Or.inr (Or.inl h2)
    · exact Or.inr (Or.inr h2)

theorem fillHeuristics_shape (env : PageEnv) (data : FillInput) :
    ∀ a ∈ (fillHeuristics env data).2,
      (∃ s, (s ∈ fillSelectorsAll ∨ s = "textarea") ∧ a = Evt.query s) ∨
        (∃ e w, a = Evt.fillAction e w) ∨ (∃ e w d, a = Evt.typeInto e w d) := by
  intro a ha
  unfold fillHeuristics at ha
  have main := fillMain_shape env data
  by_cases hm : (fillMain env data).1.message = true
  · simp [hm] at ha
    rcases main a ha with ⟨s, hs, rfl⟩ | h | h
    · exact Or.inl ⟨s, Or.inl hs, rfl⟩
    · exact Or.inr (Or.inl h)
    · exact Or.inr (Or.inr h)
  · rw [if_neg hm] at ha
    split at ha
    · simp at ha
      rcases ha with ha | rfl
      · rcases main a ha with ⟨s, hs, rfl⟩ | h | h
        · exact Or.inl ⟨s, Or.inl hs, rfl⟩
        · exact Or.inr (Or.inl h)
        · exact Or.inr (Or.inr h)
      · exact Or.inl ⟨"textarea", Or.inr rfl, rfl⟩
    · simp at ha
      rcases ha with ha | rfl
      · rcases main a ha with ⟨s, hs, rfl⟩ | h | h
        · exact Or.inl ⟨s, Or.inl hs, rfl⟩
        · exact Or.inr (Or.inl h)
        · exact Or.inr (Or.inr h)
      · exact Or.inl ⟨"textarea", Or.inr rfl, rfl⟩
    · rename_i el heq
      split at ha
      · simp at ha
        rcases ha with ha | rfl | rfl
        · rcases main a ha with ⟨s, hs, rfl⟩ | h | h
          · exact Or.inl ⟨s, Or.inl hs, rfl⟩
          · exact Or.inr (Or.inl h)
          · exact Or.inr (Or.inr h)
        · exact Or.inl ⟨"textarea", Or.inr rfl, rfl⟩
        · exact Or.inr (Or.inr ⟨el, data.message, 20, rfl⟩)
      · simp at ha
        rcases ha with ha | rfl | rfl
        · rcases main a ha with ⟨s, hs, rfl⟩ | h | h
          · exact Or.inl ⟨s, Or.inl hs, rfl⟩
          · exact Or.inr (Or.inl h)
          · exact Or.inr (Or.inr h)
        · exact Or.inl ⟨"textarea", Or.inr rfl, rfl⟩
        · exact Or.inr (Or.inr ⟨el, data.message, 20, rfl⟩)

theorem contactLoop_shape (env : PageEnv) (baseUrl : String) :
    ∀ sels, ∀ a ∈ (contactLoop env baseUrl sels).2,
      (∃ s, s ∈ sels ∧ a = Evt.query s) ∨ (∃ e att, a = Evt.getAttr e att) ∨
        (∃ t, a = Evt.gotoNav t) := by
  intro sels
  induction sels with
  | nil => intro a ha; simp [contactLoop] at ha
  | cons s rest ih =>
    intro a ha
    have lift : ∀ x ∈ (contactLoop env baseUrl rest).2,
        (∃ t, t ∈ s :: rest ∧ x = Evt.query t) ∨ (∃ e att, x = Evt.getAttr e att) ∨
          (∃ t, x = Evt.gotoNav t) := by
      intro x hx
      rcases ih x hx with ⟨t, htm, rfl⟩ | h | h
      · exact Or.inl ⟨t, by simp [htm], rfl⟩
      · exact Or.inr (Or.inl h)
      · exact Or.inr (Or.inr h)
    simp only [contactLoop] at ha
    split at ha
    · simp [prependActs] at ha
      rcases ha with rfl | ha
      · exact Or.inl ⟨s, by simp, rfl⟩
      · exact lift a ha
    · simp [prependActs] at ha
      rcases ha with rfl | ha
      · exact Or.inl ⟨s, by simp, rfl⟩
      · exact lift a ha
    · rename_i el heq
      split at ha
      · simp [prependActs] at ha
        rcases ha with rfl | rfl | ha
        · exact Or.inl ⟨s, by simp, rfl⟩
        · exact Or.inr (Or.inl ⟨el, "href", rfl⟩)
        · exact lift a ha
      · simp [prependActs] at ha
        rcases ha with rfl | rfl | ha
        · exact Or.inl ⟨s, by simp, rfl⟩
        · exact Or.inr (Or.inl ⟨el, "href", rfl⟩)
        · exact lift a ha
      · rename_i href heq2
        split at ha
        · simp [prependActs] at ha
          rcases ha with rfl | rfl | ha
          · exact Or.inl ⟨s, by simp, rfl⟩
          · exact Or.inr (Or.inl ⟨el, "href", rfl⟩)
          · exact lift a ha
        · split at ha
          · simp [prependActs] at ha
            rcases ha with rfl | rfl | ha
            · exact Or.inl ⟨s, by simp, rfl⟩
            · exact Or.inr (Or.inl ⟨el, "href", rfl⟩)
            · exact lift a ha
          · rename_i target heq3
            simp at ha
            rcases ha with rfl | rfl | rfl
            · exact Or.inl ⟨s, by simp, rfl⟩
            · exact Or.inr (Or.inl ⟨el, "href", rfl⟩)
            · exact Or.inr (Or.inr ⟨target, rfl⟩)

theorem anchorLoop_shape (baseUrl : String) :
    ∀ anchors, ∀ a ∈ (anchorLoop baseUrl anchors).2, ∃ t, a = Evt.gotoNav t := by
  intro anchors
  induction anchors with
  | nil => intro a ha; simp [anchorLoop] at ha
  | cons p rest ih =>
    intro a ha
    obtain ⟨href, text⟩ := p
    simp only [anchorLoop] at ha
    split at ha
    · exact ih a ha
    · split at ha
      · split at ha
        · rename_i target heq
          simp at ha
          exact ⟨target, by rw [ha]⟩
        · exact ih a ha
      · exact ih a ha

theorem tryNavigateToContact_shape (env : PageEnv) (baseUrl : String) :
    ∀ a ∈ (tryNavigateToContact env baseUrl).2,
      (∃ s, s ∈ contactPatterns ∧ a = Evt.query s) ∨ (∃ e att, a = Evt.getAttr e att) ∨
        (∃ t, a = Evt.gotoNav t) ∨ a = Evt.evalAnchors := by
  intro a ha
  unfold tryNavigateToContact at ha
  have fromLoop : ∀ x ∈ (contactLoop env baseUrl contactPatterns).2,
      (∃ s, s ∈ contactPatterns ∧ x = Evt.query s) ∨ (∃ e att, x = Evt.getAttr e att) ∨
        (∃ t, x = Evt.gotoNav t) ∨ x = Evt.evalAnchors := by
    intro x hx
    rcases contactLoop_shape env baseUrl contactPatterns x hx with h | h | h
    · exact Or.inl h
    · exact Or.inr (Or.inl h)
    · exact Or.inr (Or.inr (Or.inl h))
  by_cases hc : (contactLoop env baseUrl contactPatterns).1 = true
  · simp [hc] at ha
    exact fromLoop a ha
  · simp [hc] at ha
    rcases ha with ha | ha
    · exact fromLoop a ha
    · unfold anchorScan at ha
      split at ha
      · simp at ha
        exact Or.inr (Or.inr (Or.inr (by rw [ha])))
      · rename_i anchors heq
        simp [prependActs] at ha
        rcases ha with rfl | ha
        · exact Or.inr (Or.inr (Or.inr rfl))
        · obtain ⟨t, rfl⟩ := anchorLoop_shape baseUrl anchors a ha
          exact Or.inr (Or.inr (Or.inl ⟨t, rfl⟩))

theorem clickLoop_none (env : PageEnv) :
    ∀ sels, (∀ t ∈ sels, notFoundSel env t = true) →
      clickLoop env sels = (false, sels.map Evt.query) := by
  intro sels
  induction sels with
  | nil => intro h; simp [clickLoop]
  | cons s rest ih =>
    intro h
    have hs := h s (by simp)
    have hrest := ih fun t ht => h t (by simp [ht])
    unfold notFoundSel at hs
    simp only [clickLoop]
    split at hs
    · rename_i heq
      rw [heq, hrest]
      simp [prependActs]
    · rename_i heq
      rw [heq, hrest]
      simp [prependActs]
    · simp at hs

theorem clickLoop_found (env : PageEnv) :
    ∀ pre s post e, (∀ t ∈ pre, notFoundSel env t = true) →
      env.queryRes s = Except.ok (some e) →
      clickLoop env (pre ++ s :: post) =
        (true, pre.map Evt.query ++ [Evt.query s, Evt.click e, Evt.waitMs 2500]) := by
  intro pre
  induction pre with
  | nil =>
    intro s post e _ hq
    simp [clickLoop, hq]
  | cons t rest ih =>
    intro s post e h hq
    have htt := h t (by simp)
    have hrest := ih s post e (fun x hx => h x (by simp [hx])) hq
    unfold notFoundSel at htt
    simp only [List.cons_append, clickLoop]
    split at htt
    · rename_i heq
      rw [heq]
      simp [prependActs, List.append_eq, hrest]
    · rename_i heq
      rw [heq]
      simp [prependActs, List.append_eq, hrest]
    · simp at htt

theorem tryFillGo_found (env : PageEnv) (v : Option String) :
    ∀ pre s post e, (∀ t ∈ pre, notFoundSel env t = true) →
      env.queryRes s = Except.ok (some e) → env.fillRes e "" = Except.ok () →
      env.typeRes e v = Except.ok () →
      tryFillGo env v (pre ++ s :: post) =
        (true, pre.map Evt.query ++ [Evt.query s, Evt.fillAction e "", Evt.typeInto e v 20]) := by
  intro pre
  induction pre with
  | nil =>
    intro s post e _ hq hf ht
    simp [tryFillGo, hq, hf, ht]
  | cons t rest ih =>
    intro s post e h hq hf ht
    have htt := h t (by simp)
    have hrest := ih s post e (fun x hx => h x (by simp [hx])) hq hf ht
    unfold notFoundSel at htt
    simp only [List.cons_append, tryFillGo]
    split at htt
    · rename_i heq
      rw [heq]
      simp [prependActs, List.append_eq, hrest]
    · rename_i heq
      rw [heq]
      simp [prependActs, List.append_eq, hrest]
    · simp at htt

theorem fillHeuristics_ok (env : PageEnv) (data : FillInput)
    (h : ∃ r, env.queryRes "textarea" = Except.ok r) :
    ∃ t, (fillHeuristics env data).1 = Except.ok t := by
  obtain ⟨r, hr⟩ := h
  unfold fillHeuristics
  by_cases hm : (fillMain env data).1.message = true
  · exact ⟨(fillMain env data).1, by simp [hm]⟩
  · rw [if_neg hm, hr]
    cases r with
    | none => exact ⟨(fillMain env data).1, rfl⟩
    | some el =>
      cases ht : env.typeRes el data.message with
      | ok u => exact ⟨{ (fillMain env data).1 with message := true }, by simp [ht]⟩
      | error m => exact ⟨(fillMain env data).1, by simp [ht]⟩

/-! ### Evaluating the `/submit` pipeline under successful capability calls -/

theorem classify_captcha (env : PageEnv) (e : Nat) (shot : String)
    (h7 : env.queryRes captchaSelector = Except.ok (some e))
    (h8 : env.screenshotRes = Except.ok shot)
    (h9 : env.closeRes = Except.ok ()) :
    classifyAndRespond env =
      (Except.ok { status := 200, success := some false, captcha := some true,
                   reason := some (some "captcha detected"),
                   screenshot := some (some shot) },
       [Evt.query captchaSelector, Evt.screenshot, Evt.closeBrowser]) := by
  unfold classifyAndRespond
  rw [h7, h8, h9]
  simp [stepE]

theorem classify_content (env : PageEnv) (html shot : String)
    (h7 : env.queryRes captchaSelector = Except.ok none)
    (h8 : env.contentRes = Except.ok html)
    (h9 : env.screenshotRes = Except.ok shot)
    (h10 : env.closeRes = Except.ok ()) :
    (classifyAndRespond env).1 = Except.ok
      { status := 200, success := some (matchesSuccess html), captcha := some false,
        clicked := some (clickSubmit env).1,
        reason := some (if matchesSuccess html then none else some "no success message"),
        screenshot := some (if matchesSuccess html then none else some shot) } := by
  unfold classifyAndRespond
  rw [h7, h8, h9, h10]
  by_cases hs : matchesSuccess html
  · simp [stepE, hs]
  · simp [stepE, hs]

theorem submitPipeline_classify (env : PageEnv) (url : String) (data : FillInput)
    (h1 : env.launchRes = Except.ok ()) (h2 : env.newPageRes = Except.ok ())
    (h3 : env.setUserAgentRes = Except.ok ()) (h4 : env.gotoMainRes url = Except.ok ())
    (h5 : ∃ rf, env.queryRes "form" = Except.ok rf)
    (h6 : ∃ rt, env.queryRes "textarea" = Except.ok rt) :
    ∃ pre, submitPipeline env url data =
        ((classifyAndRespond env).1, pre ++ (classifyAndRespond env).2) ∧
      ∀ a ∈ pre, isSubmitEvt a = false := by
  obtain ⟨rf, hrf⟩ := h5
  obtain ⟨tfl, hfl⟩ := fillHeuristics_ok env data h6
  have hac : afterContact env data =
      ((classifyAndRespond env).1, (fillHeuristics env data).2 ++ (classifyAndRespond env).2) := by
    unfold afterContact
    rw [hfl]
    simp [stepE]
  have dAll : ∀ s ∈ fillSelectorsAll, submitSelectors.contains s = false := by decide
  have dCon : ∀ s ∈ contactPatterns, submitSelectors.contains s = false := by decide
  have dTa : submitSelectors.contains "textarea" = false := by decide
  have fillSafe : ∀ a ∈ (fillHeuristics env data).2, isSubmitEvt a = false := by
    intro a ha
    rcases fillHeuristics_shape env data a ha with ⟨s, hs, rfl⟩ | ⟨e, w, rfl⟩ | ⟨e, w, d, rfl⟩
    · rcases hs with hs | rfl
      · simpa [isSubmitEvt] using dAll s hs
      · simpa [isSubmitEvt] using dTa
    · rfl
    · rfl
  have navSafe : ∀ a ∈ (tryNavigateToContact env url).2, isSubmitEvt a = false := by
    intro a ha
    rcases tryNavigateToContact_shape env url a ha with ⟨s, hs, rfl⟩ | ⟨e, att, rfl⟩ | ⟨t, rfl⟩ | rfl
    · simpa [isSubmitEvt] using dCon s hs
    · rfl
    · rfl
    · rfl
  unfold submitPipeline
  rw [h1, h2, h3, h4, hrf]
  cases rf with
  | some f =>
    refine ⟨[Evt.launch, Evt.newPage, Evt.setUserAgent defaultUserAgent, Evt.gotoMain url,
             Evt.query "form"] ++ (fillHeuristics env data).2, ?_, ?_⟩
    · simp [stepE, hac]
    · intro a ha
      simp at ha
      rcases ha with rfl | rfl | rfl | rfl | rfl | ha
      · rfl
      · rfl
      · rfl
      · rfl
      · decide
      · exact fillSafe a ha
  | none =>
    refine ⟨[Evt.launch, Evt.newPage, Evt.setUserAgent defaultUserAgent, Evt.gotoMain url,
             Evt.query "form"] ++ (tryNavigateToContact env url).2 ++ [Evt.query "form"] ++
             (fillHeuristics env data).2, ?_, ?_⟩
    · simp [stepE, hac]
    · intro a ha
      simp at ha
      rcases ha with rfl | rfl | rfl | rfl | rfl | ha | rfl | ha
      · rfl
      · rfl
      · rfl
      · rfl
      · decide
      · exact navSafe a ha
      · decide
      · exact fillSafe a ha

theorem classify_ok_close (env : PageEnv) (r : HttpResp)
    (hok : (classifyAndRespond env).1 = Except.ok r) :
    Evt.closeBrowser ∈ (classifyAndRespond env).2 := by
  unfold classifyAndRespond at hok ⊢
  refine stepE_mem_of _ _ _ _ _ hok ?_
  intro captchaEl h1
  cases captchaEl with
  | some e =>
    simp only [Option.isSome_some, if_true] at h1 ⊢
    refine stepE_mem_of _ _ _ _ _ h1 ?_
    intro shot h2
    exact stepE_mem_acts _ _ _ _ (by simp)
  | none =>
    simp only [Option.isSome_none, Bool.false_eq_true, if_false] at h1 ⊢
    refine stepE_mem_of _ _ _ _ _ h1 ?_
    intro html h2
    by_cases hs : matchesSuccess html
    · simp only [hs, if_true] at h2 ⊢
      exact stepE_mem_acts _ _ _ _ (by simp)
    · simp only [hs, Bool.false_eq_true, if_false] at h2 ⊢
      refine stepE_mem_of _ _ _ _ _ h2 ?_
      intro shot h3
      exact stepE_mem_acts _ _ _ _ (by simp)

theorem afterContact_ok_close (env : PageEnv) (data : FillInput) (r : HttpResp)
    (hok : (afterContact env data).1 = Except.ok r) :
    Evt.closeBrowser ∈ (afterContact env data).2 := by
  unfold afterContact at hok ⊢
  refine stepE_mem_of _ _ _ _ _ hok ?_
  intro t h1
  exact classify_ok_close env r h1

theorem submitPipeline_ok_close (env : PageEnv) (url : String) (data : FillInput) (r : HttpResp)
    (hok : (submitPipeline env url data).1 = Except.ok r) :
    Evt.closeBrowser ∈ (submitPipeline env url data).2 := by
  unfold submitPipeline at hok ⊢
  refine stepE_mem_of _ _ _ _ _ hok ?_
  intro a1 h1
  refine stepE_mem_of _ _ _ _ _ h1 ?_
  intro a2 h2
  refine stepE_mem_of _ _ _ _ _ h2 ?_
  intro a3 h3
  refine stepE_mem_of _ _ _ _ _ h3 ?_
  intro a4 h4
  refine stepE_mem_of _ _ _ _ _ h4 ?_
  intro ff h5
  cases ff with
  | some f =>
    simp only [Option.isSome_some, if_true] at h5 ⊢
    exact afterContact_ok_close env data r h5
  | none =>
    simp only [Option.isSome_none, Bool.false_eq_true, if_false] at h5 ⊢
    refine stepE_mem_of _ _ _ _ _ h5 ?_
    intro a6 h6
    exact afterContact_ok_close env data r h6

/-! ### Claim theorems -/

/-- C1: for every `POST /submit` request on whose loaded page the
pre-submission CAPTCHA check finds CAPTCHA-indicating markup (the combined
selector for recaptcha iframes and `h-captcha`/`g-recaptcha` classes returns
an element), provided the surrounding capability calls themselves succeed,
the Submission Trigger is never invoked — the trace contains no
submit-selector lookup, no click and no Enter key press — and the response is
`{success:false, captcha:true, reason:'captcha detected'}` with a non-null
screenshot. -/
theorem C1_captcha_blocks_submission (env : PageEnv) (req : SubmitReq) (e : Nat) (shot : String)
    (hu : truthy req.url = true)
    (h1 : env.launchRes = Except.ok ()) (h2 : env.newPageRes = Except.ok ())
    (h3 : env.setUserAgentRes = Except.ok ())
    (h4 : env.gotoMainRes (jsStr req.url) = Except.ok ())
    (h5 : ∃ rf, env.queryRes "form" = Except.ok rf)
    (h6 : ∃ rt, env.queryRes "textarea" = Except.ok rt)
    (h7 : env.queryRes captchaSelector = Except.ok (some e))
    (h8 : env.screenshotRes = Except.ok shot)
    (h9 : env.closeRes = Except.ok ()) :
    (submitHandler env req).1 =
      { status := 200, success := some false, captcha := some true,
        reason := some (some "captcha detected"), screenshot := some (some shot) } ∧
    ((submitHandler env req).2.all fun a => !isSubmitEvt a) = true := by
  obtain ⟨pre, hpipe, hpre⟩ :=
    submitPipeline_classify env (jsStr req.url) (mkFillInput req) h1 h2 h3 h4 h5 h6
  have hcls := classify_captcha env e shot h7 h8 h9
  have hhandler : submitHandler env req =
      ({ status := 200, success := some false, captcha := some true,
         reason := some (some "captcha detected"), screenshot := some (some shot) },
       pre ++ [Evt.query captchaSelector, Evt.screenshot, Evt.closeBrowser]) := by
    unfold submitHandler
    rw [hu]
    simp only [if_true]
    rw [hpipe, hcls]
  rw [hhandler]
  refine ⟨rfl, ?_⟩
  simp only [List.all_append]
  refine (Bool.and_eq_true _ _).mpr ⟨?_, by decide⟩
  exact List.all_eq_true.mpr fun a ha => by rw [hpre a ha]; rfl

/-- Witness for C1 at a concrete oracle: page with a form and a
`g-recaptcha`-matching element; the response is the captcha verdict with the
screenshot, and the trace contains no submission action. -/
theorem C1_captcha_blocks_submission_witness :
    truthy reqBasic.url = true ∧
    envC1.queryRes captchaSelector = Except.ok (some 3) ∧
    (submitHandler envC1 reqBasic).1 =
      { status := 200, success := some false, captcha := some true,
        reason := some (some "captcha detected"), screenshot := some (some "img") } ∧
    ((submitHandler envC1 reqBasic).2.all fun a => !isSubmitEvt a) = true := by
  have h := C1_captcha_blocks_submission envC1 reqBasic 3 "img" (by decide) rfl rfl rfl rfl
    ⟨some 1, by decide⟩ ⟨none, by decide⟩ (by decide) rfl rfl
  exact ⟨by decide, by decide, h.1, h.2⟩

/-- C2 (amended): for every `POST /submit` request that reaches
post-submission classification (captcha lookup finds nothing, content read
succeeds), the response is 200 with `success` reflecting exactly whether the
rendered content contains, case-insensitively, one of the phrases
"thank you", "we received your message", "message sent",
"thanks for contacting", "we will contact you"; on a match `reason` is null
and the screenshot is null, otherwise `reason` is "no success message" and a
non-null screenshot is attached. -/
theorem C2_content_classification (env : PageEnv) (req : SubmitReq) (html shot : String)
    (hu : truthy req.url = true)
    (h1 : env.launchRes = Except.ok ()) (h2 : env.newPageRes = Except.ok ())
    (h3 : env.setUserAgentRes = Except.ok ())
    (h4 : env.gotoMainRes (jsStr req.url) = Except.ok ())
    (h5 : ∃ rf, env.queryRes "form" = Except.ok rf)
    (h6 : ∃ rt, env.queryRes "textarea" = Except.ok rt)
    (h7 : env.queryRes captchaSelector = Except.ok none)
    (h8 : env.contentRes = Except.ok html)
    (h9 : env.screenshotRes = Except.ok shot)
    (h10 : env.closeRes = Except.ok ()) :
    (submitHandler env req).1.status = 200 ∧
    (submitHandler env req).1.success = some (matchesSuccess html) ∧
    (submitHandler env req).1.captcha = some false ∧
    (submitHandler env req).1.reason =
      some (if matchesSuccess html then none else some "no success message") ∧
    (submitHandler env req).1.screenshot =
      some (if matchesSuccess html then none else some shot) ∧
    (matchesSuccess html = true ↔
      ∃ p ∈ successPhrases, containsSeq p.toList (lowerL html.toList) = true) := by
  obtain ⟨pre, hpipe, _⟩ :=
    submitPipeline_classify env (jsStr req.url) (mkFillInput req) h1 h2 h3 h4 h5 h6
  have hcls := classify_content env html shot h7 h8 h9 h10
  have hres : (submitHandler env req).1 =
      { status := 200, success := some (matchesSuccess html), captcha := some false,
        clicked := some (clickSubmit env).1,
        reason := some (if matchesSuccess html then none else some "no success message"),
        screenshot := some (if matchesSuccess html then none else some shot) } := by
    unfold submitHandler
    rw [hu]
    simp only [if_true]
    rw [hpipe, hcls]
  rw [hres]
  refine ⟨rfl, rfl, rfl, rfl, rfl, ?_⟩
  simp [matchesSuccess, List.any_eq_true]

/-- Witness for the amended C2 at a concrete oracle whose rendered content
contains "we received your message". -/
theorem C2_content_classification_witness :
    (submitHandler envC2b { url := some "http://example.com/" }).1.success = some true ∧
    (submitHandler envC2b { url := some "http://example.com/" }).1.reason = some none ∧
    (submitHandler envC2b { url := some "http://example.com/" }).1.screenshot = some none := by
  have h := C2_content_classification envC2b { url := some "http://example.com/" }
    "OK - We received your message today" "img" (by decide) rfl rfl rfl rfl
    ⟨some 1, by decide⟩ ⟨none, by decide⟩ (by decide) rfl rfl rfl
  refine ⟨?_, ?_, ?_⟩
  · rw [h.2.1]; decide
  · rw [h.2.2.2.1]; decide
  · rw [h.2.2.2.2.1]; decide

/-- Counterexample to C2 as stated: the claim lists "we received" among the
confirmation phrases, but the code's alternation only contains
"we received your message".  On a page whose rendered content is
"We received a phone call" — which contains "we received" case-insensitively —
the response is a failure with reason "no success message", not a success. -/
theorem C2_counterexample :
    containsCI "We received a phone call" "we received" = true ∧
    (submitHandler envC2 { url := some "http://example.com/" }).1.success = some false ∧
    (submitHandler envC2 { url := some "http://example.com/" }).1.reason =
      some (some "no success message") := by
  exact ⟨by decide, by decide, by decide⟩

theorem fillFormPipeline_ok_close (env : PageEnv) (url : String) (req : SubmitReq) (r : HttpResp)
    (hok : (fillFormPipeline env url req).1 = Except.ok r) :
    Evt.closeBrowser ∈ (fillFormPipeline env url req).2 := by
  unfold fillFormPipeline at hok ⊢
  refine stepE_mem_of _ _ _ _ _ hok ?_
  intro a1 h1
  refine stepE_mem_of _ _ _ _ _ h1 ?_
  intro a2 h2
  refine stepE_mem_of _ _ _ _ _ h2 ?_
  intro a3 h3
  refine stepE_mem_of _ _ _ _ _ h3 ?_
  intro a4 h4
  refine stepE_mem_of _ _ _ _ _ h4 ?_
  intro a5 h5
  refine stepE_mem_of _ _ _ _ _ h5 ?_
  intro a6 h6
  exact stepE_mem_acts _ _ _ _ (by simp)

/-- C9 (amended): on every exit path of a submission request after the
browser has been launched — success, failure or captcha verdict, or an
exception at any later step — a `browser.close` is attempted in the trace
before any response, on both the `/submit` handler and the earlier
`/fill-form` variant.  When the pipeline throws, `/submit` responds 500 with
`success:false` and the exception message as the `reason`; `/fill-form`
responds 500 with the message in its `error` field only when the unguarded
`browser.close()` inside its catch itself succeeds — when that close throws,
no response is produced at all. -/
theorem C9_browser_always_closed (env : PageEnv) (req : SubmitReq) :
    (truthy req.url = true → env.launchRes = Except.ok () →
      Evt.closeBrowser ∈ (submitHandler env req).2) ∧
    (∀ m, truthy req.url = true →
      (submitPipeline env (jsStr req.url) (mkFillInput req)).1 = Except.error m →
      (submitHandler env req).1 =
        { status := 500, success := some false, reason := some (some m) }) ∧
    (truthy req.url = true → env.launchRes = Except.ok () →
      Evt.closeBrowser ∈ (fillFormHandler env req).2) ∧
    (∀ m, truthy req.url = true → env.launchRes = Except.ok () →
      env.closeRes = Except.ok () →
      (fillFormPipeline env (jsStr req.url) req).1 = Except.error m →
      (fillFormHandler env req).1 =
        some { status := 500, success := some false, error := some m,
               url := some (jsStr req.url), timestamp := some env.nowStr }) ∧
    (∀ m m2, truthy req.url = true → env.launchRes = Except.ok () →
      env.closeRes = Except.error m2 →
      (fillFormPipeline env (jsStr req.url) req).1 = Except.error m →
      (fillFormHandler env req).1 = none) := by
  refine ⟨?_, ?_, ?_, ?_, ?_⟩
  · intro hu hl
    unfold submitHandler
    rw [hu]
    simp only [if_true]
    rcases hp : submitPipeline env (jsStr req.url) (mkFillInput req) with ⟨res, tr⟩
    cases res with
    | ok resp =>
      have hclose := submitPipeline_ok_close env (jsStr req.url) (mkFillInput req) resp
        (by rw [hp])
      rw [hp] at hclose
      simpa using hclose
    | error m =>
      simp [hl, isOkE]
  · intro m hu hp1
    unfold submitHandler
    rw [hu]
    simp only [if_true]
    rcases hp : submitPipeline env (jsStr req.url) (mkFillInput req) with ⟨res, tr⟩
    rw [hp] at hp1
    cases res with
    | ok resp => simp at hp1
    | error m2 =>
      simp at hp1
      rw [hp1]
  · intro hu hl
    unfold fillFormHandler
    rw [hu]
    simp only [if_true]
    rcases hp : fillFormPipeline env (jsStr req.url) req with ⟨res, tr⟩
    cases res with
    | ok resp =>
      have hclose := fillFormPipeline_ok_close env (jsStr req.url) req resp
        (by rw [hp])
      rw [hp] at hclose
      simpa using hclose
    | error m =>
      simp only [hl, isOkE]
      cases env.closeRes <;> simp
  · intro m hu hl hc hp1
    unfold fillFormHandler
    rw [hu]
    simp only [if_true]
    rcases hp : fillFormPipeline env (jsStr req.url) req with ⟨res, tr⟩
    rw [hp] at hp1
    cases res with
    | ok resp => simp at hp1
    | error m3 =>
      simp at hp1
      subst hp1
      simp [hl, isOkE, hc]
  · intro m m2 hu hl hc hp1
    unfold fillFormHandler
    rw [hu]
    simp only [if_true]
    rcases hp : fillFormPipeline env (jsStr req.url) req with ⟨res, tr⟩
    rw [hp] at hp1
    cases res with
    | ok resp => simp at hp1
    | error m3 =>
      simp at hp1
      subst hp1
      simp [hl, isOkE, hc]

/-- Witness for C9 at a concrete oracle where navigation throws after a
successful launch and the close succeeds: on `/submit` the browser is closed
and the response is the 500 carrying the navigation error message as
`reason`; on `/fill-form` it is the 500 carrying it in `error`; and at the
oracle whose close also throws, `/fill-form` produces no response. -/
theorem C9_browser_always_closed_witness :
    truthy reqBasic.url = true ∧
    envC9.launchRes = Except.ok () ∧
    Evt.closeBrowser ∈ (submitHandler envC9 reqBasic).2 ∧
    (submitHandler envC9 reqBasic).1 =
      { status := 500, success := some false,
        reason := some (some "net::TIMEOUT at navigation") } ∧
    Evt.closeBrowser ∈ (fillFormHandler envC9 reqBasic).2 ∧
    (fillFormHandler envC9 reqBasic).1 =
      some { status := 500, success := some false,
             error := some "net::TIMEOUT at navigation",
             url := some "http://example.com/", timestamp := some "t0" } ∧
    (fillFormHandler envC9b reqBasic).1 = none := by
  refine ⟨by decide, rfl, ?_, ?_, ?_, ?_, ?_⟩
  · exact (C9_browser_always_closed envC9 reqBasic).1 (by decide) rfl
  · exact (C9_browser_always_closed envC9 reqBasic).2.1 "net::TIMEOUT at navigation"
      (by decide) (by decide)
  · exact (C9_browser_always_closed envC9 reqBasic).2.2.1 (by decide) rfl
  · exact (C9_browser_always_closed envC9 reqBasic).2.2.2.1 "net::TIMEOUT at navigation"
      (by decide) rfl rfl (by decide)
  · exact (C9_browser_always_closed envC9b reqBasic).2.2.2.2 "net::TIMEOUT at navigation"
      "Target closed" (by decide) rfl (by decide) (by decide)

/-- Counterexample to C9 as stated: the `/fill-form` variant cited by the
claim runs `await browser.close()` unguarded inside its catch block, so when
the pipeline throws after a successful launch and that close itself also
throws, the handler produces no HTTP response at all — in particular no 500
carrying the exception message — even though the close attempt is in the
trace. -/
theorem C9_counterexample :
    envC9b.launchRes = Except.ok () ∧
    (fillFormPipeline envC9b (jsStr reqBasic.url) reqBasic).1 =
      Except.error "net::TIMEOUT at navigation" ∧
    (fillFormHandler envC9b reqBasic).1 = none ∧
    Evt.closeBrowser ∈ (fillFormHandler envC9b reqBasic).2 := by
  exact ⟨rfl, by decide, by decide, by decide⟩

/-- C3: the field-fill step processes fields in the fixed order email, name,
message, phone, company; an absent/empty value is skipped with no attempt;
candidates are tried in declared order and the first existing element is
cleared, typed with the 20 ms per-key delay and marked filled, with no
further candidates for that field; per-candidate lookup/fill/type errors are
swallowed ("try next candidate"); and a flag set by a field attempt is never
retracted by the later steps or the fallback. -/
theorem C3_fill_order_and_first_match (env : PageEnv) :
    (∀ sels v, jsFalsy v = true → tryFillList env sels v = (false, [])) ∧
    (∀ pre s post v e, (∀ t ∈ pre, notFoundSel env t = true) →
      env.queryRes s = Except.ok (some e) → env.fillRes e "" = Except.ok () →
      env.typeRes e (some v) = Except.ok () → jsFalsy (some v) = false →
      tryFillList env (pre ++ s :: post) (some v) =
        (true, pre.map Evt.query ++
          [Evt.query s, Evt.fillAction e "", Evt.typeInto e (some v) 20])) ∧
    (∀ s rest v m, env.queryRes s = Except.error m →
      tryFillGo env v (s :: rest) = prependActs [Evt.query s] (tryFillGo env v rest)) ∧
    (∀ s rest v e m, env.queryRes s = Except.ok (some e) →
      env.fillRes e "" = Except.error m →
      tryFillGo env v (s :: rest) =
        prependActs [Evt.query s, Evt.fillAction e ""] (tryFillGo env v rest)) ∧
    (∀ s rest v e m, env.queryRes s = Except.ok (some e) → env.fillRes e "" = Except.ok () →
      env.typeRes e v = Except.error m →
      tryFillGo env v (s :: rest) =
        prependActs [Evt.query s, Evt.fillAction e "", Evt.typeInto e v 20]
          (tryFillGo env v rest)) ∧
    (∀ data, fillMain env data =
      ({ email := (tryFillList env emailSelectors data.email).1,
         name := (tryFillList env nameSelectors data.name).1,
         message := (tryFillList env messageSelectors data.message).1,
         phone := (tryFillList env phoneSelectors (some (jsStr data.phone))).1,
         company := (tryFillList env companySelectors (some (jsStr data.company))).1 },
       (tryFillList env emailSelectors data.email).2 ++
         (tryFillList env nameSelectors data.name).2 ++
         (tryFillList env messageSelectors data.message).2 ++
         (tryFillList env phoneSelectors (some (jsStr data.phone))).2 ++
         (tryFillList env companySelectors (some (jsStr data.company))).2)) ∧
    (∀ data t, (fillHeuristics env data).1 = Except.ok t →
      t.email = (fillMain env data).1.email ∧ t.name = (fillMain env data).1.name ∧
      t.phone = (fillMain env data).1.phone ∧ t.company = (fillMain env data).1.company ∧
      ((fillMain env data).1.message = true → t.message = true)) := by
  refine ⟨?_, ?_, ?_, ?_, ?_, ?_, ?_⟩
  · intro sels v hv
    unfold tryFillList
    simp [hv]
  · intro pre s post v e hpre hq hf ht hv
    unfold tryFillList
    rw [hv]
    simp only [Bool.false_eq_true, if_false]
    exact tryFillGo_found env (some v) pre s post e hpre hq hf ht
  · intro s rest v m hq
    simp [tryFillGo, hq, prependActs]
  · intro s rest v e m hq hf
    simp [tryFillGo, hq, hf, prependActs]
  · intro s rest v e m hq hf ht
    simp [tryFillGo, hq, hf, ht, prependActs]
  · intro data
    rfl
  · intro data t hok
    unfold fillHeuristics at hok
    by_cases hm : (fillMain env data).1.message = true
    · rw [if_pos hm] at hok
      simp at hok
      subst hok
      exact ⟨rfl, rfl, rfl, rfl, fun _ => hm⟩
    · rw [if_neg hm] at hok
      split at hok
      · simp at hok
      · simp at hok
        subst hok
        exact ⟨rfl, rfl, rfl, rfl, fun hc => absurd hc hm⟩
      · split at hok
        · simp at hok
          subst hok
          exact ⟨rfl, rfl, rfl, rfl, fun _ => rfl⟩
        · simp at hok
          subst hok
          exact ⟨rfl, rfl, rfl, rfl, fun hc => absurd hc hm⟩

/-- Witness for C3: an empty value is skipped with no browser action, and on
the list `[selA, selB, selC]` where only `selB` finds an element, exactly
`selA` is probed, `selB` is cleared and typed, and `selC` is never tried. -/
theorem C3_fill_order_and_first_match_witness :
    tryFillList envC3 ["selA", "selB"] none = (false, []) ∧
    tryFillList envC3 (["selA"] ++ "selB" :: ["selC"]) (some "v") =
      (true, [Evt.query "selA", Evt.query "selB", Evt.fillAction 4 "",
              Evt.typeInto 4 (some "v") 20]) := by
  have h := C3_fill_order_and_first_match envC3
  refine ⟨h.1 ["selA", "selB"] none rfl, ?_⟩
  have hb := h.2.1 ["selA"] "selB" ["selC"] "v" 4 (by decide) (by decide) rfl rfl (by decide)
  simpa using hb

/-- C4 (amended): a request with missing/empty `url` is answered 400 with no
browser action at all; the `/submit` body is
`{success:false, reason:'missing url'}` while the earlier `/fill-form`
variant answers `{error:'URL is required'}` (no `success`/`reason` keys). -/
theorem C4_missing_url (env : PageEnv) (req : SubmitReq) (h : truthy req.url = false) :
    submitHandler env req =
      ({ status := 400, success := some false, reason := some (some "missing url") }, []) ∧
    fillFormHandler env req = (some { status := 400, error := some "URL is required" }, []) := by
  constructor
  · unfold submitHandler
    simp [h]
  · unfold fillFormHandler
    simp [h]

/-- Witness for C4 on the request with no url. -/
theorem C4_missing_url_witness :
    truthy reqNoUrl.url = false ∧
    submitHandler envAllOk reqNoUrl =
      ({ status := 400, success := some false, reason := some (some "missing url") }, []) ∧
    fillFormHandler envAllOk reqNoUrl =
      (some { status := 400, error := some "URL is required" }, []) := by
  have h := C4_missing_url envAllOk reqNoUrl (by decide)
  exact ⟨by decide, h.1, h.2⟩

/-- Counterexample to C4 as stated: on the `/fill-form` endpoint (also cited
by the claim) a missing url yields 400 with body `{error: 'URL is required'}`
— the `success` and `reason` keys of the claimed body are absent. -/
theorem C4_counterexample :
    (fillFormHandler envAllOk reqNoUrl).1 =
      some { status := 400, error := some "URL is required" } ∧
    Option.map HttpResp.success (fillFormHandler envAllOk reqNoUrl).1 = some none ∧
    Option.map HttpResp.reason (fillFormHandler envAllOk reqNoUrl).1 = some none ∧
    (fillFormHandler envAllOk reqNoUrl).2 = [] := by
  exact ⟨by decide, by decide, by decide, by decide⟩

/-- C5 (code-bug evaluation): on the failing input — a valid url with
non-empty phone "555-1234" and company "Acme", served by a page where the
`input[type=tel]` and `input[name*=company i]` candidates would match — the
`/submit` handler performs no phone or company lookup or fill at all: the
handler's `{ name, email, message }` literal drops both values, so
`fillHeuristics` receives empty strings and skips both fields. -/
theorem C5_phone_company_dropped :
    truthy reqC5.phone = true ∧ truthy reqC5.company = true ∧
    envC5.queryRes "input[type=tel]" = Except.ok (some 5) ∧
    envC5.queryRes "input[name*=company i]" = Except.ok (some 6) ∧
    mkFillInput reqC5 = { name := none, email := none, message := none,
                          phone := none, company := none } ∧
    ((submitHandler envC5 reqC5).2.filter isPhoneCompanyTouch) = [] := by
  exact ⟨by decide, by decide, by decide, by decide, rfl, by decide⟩

/-- C6 (amended): the first-textarea fallback runs exactly when the message
field was not marked filled by the five field attempts — regardless of
whether the message value is non-empty — and in that case (and no other) the
first textarea receives a typing attempt with the raw message value. -/
theorem C6_textarea_fallback (env : PageEnv) (data : FillInput) :
    ((fillMain env data).1.message = true →
      fillHeuristics env data = (Except.ok (fillMain env data).1, (fillMain env data).2)) ∧
    (Evt.query "textarea" ∈ (fillHeuristics env data).2 ↔
      (fillMain env data).1.message = false) ∧
    (∀ e, (fillMain env data).1.message = false →
      env.queryRes "textarea" = Except.ok (some e) →
      Evt.typeInto e data.message 20 ∈ (fillHeuristics env data).2) := by
  refine ⟨?_, ⟨?_, ?_⟩, ?_⟩
  · intro hm
    unfold fillHeuristics
    simp [hm]
  · intro hmem
    cases hb : (fillMain env data).1.message
    · rfl
    · exfalso
      have heq : fillHeuristics env data =
          (Except.ok (fillMain env data).1, (fillMain env data).2) := by
        unfold fillHeuristics
        simp [hb]
      rw [heq] at hmem
      rcases fillMain_shape env data _ hmem with ⟨s, hs, hqe⟩ | ⟨e, w, hqe⟩ | ⟨e, w, d, hqe⟩
      · have hse : s = "textarea" := by simpa using hqe.symm
        subst hse
        exact absurd hs (by decide)
      · simp at hqe
      · simp at hqe
  · intro hm
    unfold fillHeuristics
    rw [if_neg (by simp [hm])]
    split
    · simp
    · simp
    · split
      · simp
      · simp
  · intro e hm hq
    unfold fillHeuristics
    rw [if_neg (by simp [hm]), hq]
    split
    · rename_i heq
      simp at heq
    · rename_i heq
      simp at heq
    · rename_i el heq
      have hel : e = el := by simpa using heq
      subst hel
      split
      · simp
      · simp

/-- Witness for the amended C6: with no message value at all and a bare
textarea on the page, the fallback runs and attempts to type the undefined
message. -/
theorem C6_textarea_fallback_witness :
    Evt.query "textarea" ∈ (fillHeuristics envC6 dataC6).2 ∧
    Evt.typeInto 9 none 20 ∈ (fillHeuristics envC6 dataC6).2 := by
  refine ⟨?_, ?_⟩
  · exact ((C6_textarea_fallback envC6 dataC6).2.1).mpr (by decide)
  · exact (C6_textarea_fallback envC6 dataC6).2.2 9 (by decide) (by decide)

/-- Counterexample to C6 as stated: the claim requires the fallback to run
only when the message value is non-empty, but on a fill input with no message
at all (`undefined`, hence empty) and a page with a bare textarea the code
still performs the textarea lookup and a typing attempt with the undefined
value (which throws inside the swallowed `try`). -/
theorem C6_counterexample :
    jsFalsy dataC6.message = true ∧
    Evt.query "textarea" ∈ (fillHeuristics envC6 dataC6).2 ∧
    Evt.typeInto 9 none 20 ∈ (fillHeuristics envC6 dataC6).2 := by
  exact ⟨rfl, by decide, by decide⟩

theorem ffFillLoop_shape (env : PageEnv) (value : String) :
    ∀ sels, ∀ a ∈ ffFillLoop env value sels,
      (∃ s, s ∈ sels ∧ a = Evt.query s) ∨ (∃ e, a = Evt.fillAction e value) := by
  intro sels
  induction sels with
  | nil => intro a ha; simp [ffFillLoop] at ha
  | cons s rest ih =>
    intro a ha
    have lift : ∀ x ∈ ffFillLoop env value rest,
        (∃ t, t ∈ s :: rest ∧ x = Evt.query t) ∨ (∃ e, x = Evt.fillAction e value) := by
      intro x hx
      rcases ih x hx with ⟨t, htm, rfl⟩ | h
      · exact Or.inl ⟨t, by simp [htm], rfl⟩
      · exact Or.inr h
    simp only [ffFillLoop] at ha
    split at ha
    · simp at ha
      rcases ha with rfl | ha
      · exact Or.inl ⟨s, by simp, rfl⟩
      · exact lift a ha
    · simp at ha
      rcases ha with rfl | ha
      · exact Or.inl ⟨s, by simp, rfl⟩
      · exact lift a ha
    · rename_i el heq
      split at ha
      · simp at ha
        rcases ha with rfl | rfl | ha
        · exact Or.inl ⟨s, by simp, rfl⟩
        · exact Or.inr ⟨el, rfl⟩
        · exact lift a ha
      · simp at ha
        rcases ha with rfl | rfl
        · exact Or.inl ⟨s, by simp, rfl⟩
        · exact Or.inr ⟨el, rfl⟩

theorem ffSubmitLoop_shape (env : PageEnv) :
    ∀ sels, ∀ a ∈ ffSubmitLoop env sels,
      (∃ s, s ∈ sels ∧ a = Evt.query s) ∨ (∃ e, a = Evt.click e) := by
  intro sels
  induction sels with
  | nil => intro a ha; simp [ffSubmitLoop] at ha
  | cons s rest ih =>
    intro a ha
    have lift : ∀ x ∈ ffSubmitLoop env rest,
        (∃ t, t ∈ s :: rest ∧ x = Evt.query t) ∨ (∃ e, x = Evt.click e) := by
      intro x hx
      rcases ih x hx with ⟨t, htm, rfl⟩ | h
      · exact Or.inl ⟨t, by simp [htm], rfl⟩
      · exact Or.inr h
    simp only [ffSubmitLoop] at ha
    split at ha
    · simp at ha
      rcases ha with rfl | ha
      · exact Or.inl ⟨s, by simp, rfl⟩
      · exact lift a ha
    · simp at ha
      rcases ha with rfl | ha
      · exact Or.inl ⟨s, by simp, rfl⟩
      · exact lift a ha
    · rename_i el heq
      split at ha
      · simp at ha
        rcases ha with rfl | rfl | ha
        · exact Or.inl ⟨s, by simp, rfl⟩
        · exact Or.inr ⟨el, rfl⟩
        · exact lift a ha
      · simp at ha
        rcases ha with rfl | rfl
        · exact Or.inl ⟨s, by simp, rfl⟩
        · exact Or.inr ⟨el, rfl⟩

/-- C8 (amended): the submission trigger tries the ordered selector list of
the source — explicit submit-type button/input first, then buttons
text-matching "Send", "Submit", "Send Message", "Contact Us" (in that
order); on the first existing match it clicks concurrently with the fixed
2.5 s wait and returns true immediately; if no selector matches (lookup
errors swallowed, counting as no match) it presses Enter, waits 1.5 s and
returns true; only if the key press itself throws does it return false. -/
theorem C8_submit_trigger (env : PageEnv) :
    submitSelectors =
      ["button[type=submit]", "input[type=submit]", "button:has-text(\"Send\")",
       "button:has-text(\"Submit\")", "button:has-text(\"Send Message\")",
       "button:has-text(\"Contact Us\")"] ∧
    (∀ pre s post e, submitSelectors = pre ++ s :: post →
      (∀ t ∈ pre, notFoundSel env t = true) → env.queryRes s = Except.ok (some e) →
      clickSubmit env =
        (true, pre.map Evt.query ++ [Evt.query s, Evt.click e, Evt.waitMs 2500])) ∧
    ((∀ t ∈ submitSelectors, notFoundSel env t = true) → env.pressEnterRes = Except.ok () →
      clickSubmit env =
        (true, submitSelectors.map Evt.query ++ [Evt.pressEnter, Evt.waitMs 1500])) ∧
    (∀ m, (∀ t ∈ submitSelectors, notFoundSel env t = true) →
      env.pressEnterRes = Except.error m →
      clickSubmit env = (false, submitSelectors.map Evt.query ++ [Evt.pressEnter])) := by
  refine ⟨rfl, ?_, ?_, ?_⟩
  · intro pre s post e hdec hpre hq
    unfold clickSubmit
    rw [hdec, clickLoop_found env pre s post e hpre hq]
    simp
  · intro hnone hpress
    unfold clickSubmit
    rw [clickLoop_none env submitSelectors hnone, hpress]
    simp
  · intro m hnone hpress
    unfold clickSubmit
    rw [clickLoop_none env submitSelectors hnone, hpress]
    simp

/-- Witness for the amended C8: a first-selector match is clicked with the
2.5 s wait, and a page with no matching control falls back to Enter. -/
theorem C8_submit_trigger_witness :
    clickSubmit envC8w = (true, [Evt.query "button[type=submit]", Evt.click 2, Evt.waitMs 2500]) ∧
    clickSubmit envAllOk = (true, submitSelectors.map Evt.query ++ [Evt.pressEnter, Evt.waitMs 1500]) := by
  refine ⟨?_, ?_⟩
  · have h := (C8_submit_trigger envC8w).2.1 [] "button[type=submit]"
      ["input[type=submit]", "button:has-text(\"Send\")", "button:has-text(\"Submit\")",
       "button:has-text(\"Send Message\")", "button:has-text(\"Contact Us\")"] 2 rfl
      (by decide) (by decide)
    simpa using h
  · exact (C8_submit_trigger envAllOk).2.2.1 (by decide) rfl

/-- Counterexample to C8 as stated: the claim orders the text selectors
"Send", "Send Message", "Submit", "Contact Us", but the source tries
"Submit" before "Send Message".  On a page where no submit-type control and
no "Send"-matching button exist, one button (7) matches the `Submit` text
selector and another (8) matches the `Send Message` text selector, the code
looks up `Submit` fourth and clicks element 7; under the claimed order the
`Send Message` lookup would have come fourth and element 8 would have been
clicked. -/
theorem C8_counterexample :
    envC8.queryRes "button:has-text(\"Send Message\")" = Except.ok (some 8) ∧
    clickSubmit envC8 = (true,
      [Evt.query "button[type=submit]", Evt.query "input[type=submit]",
       Evt.query "button:has-text(\"Send\")", Evt.query "button:has-text(\"Submit\")",
       Evt.click 7, Evt.waitMs 2500]) ∧
    Evt.click 8 ∉ (clickSubmit envC8).2 ∧
    submitSelectors ≠
      ["button[type=submit]", "input[type=submit]", "button:has-text(\"Send\")",
       "button:has-text(\"Send Message\")", "button:has-text(\"Submit\")",
       "button:has-text(\"Contact Us\")"] := by
  exact ⟨by decide, by decide, by decide, by decide⟩

/-- C10: in the earlier `/fill-form` variant, whenever navigation and the
initial wait for a form element succeed and no exception escapes the handler
(launch, context, page, screenshot and close calls succeed), the response is
HTTP 200 `success:true` with message "Form submitted successfully" —
unconditionally: no CAPTCHA lookup and no page-content read appear in the
trace, and the response does not depend on whether any field was filled or
any button clicked. -/
theorem C10_fillform_unconditional_success (env : PageEnv) (req : SubmitReq)
    (hu : truthy req.url = true)
    (h1 : env.launchRes = Except.ok ()) (h2 : env.newContextRes = Except.ok ())
    (h3 : env.newPageRes = Except.ok ())
    (h4 : env.gotoMainRes (jsStr req.url) = Except.ok ())
    (h5 : env.waitForSelRes = Except.ok ())
    (h6 : ∃ shot, env.screenshotRes = Except.ok shot)
    (h7 : env.closeRes = Except.ok ()) :
    (fillFormHandler env req).1 =
      some { status := 200, success := some true, url := some (jsStr req.url),
             timestamp := some env.nowStr, message := some "Form submitted successfully" } ∧
    ∀ a ∈ (fillFormHandler env req).2, a ≠ Evt.getContent ∧ a ≠ Evt.query captchaSelector := by
  obtain ⟨shot, hshot⟩ := h6
  have hp : fillFormPipeline env (jsStr req.url) req =
      (Except.ok { status := 200, success := some true, url := some (jsStr req.url),
                   timestamp := some env.nowStr, message := some "Form submitted successfully" },
       [Evt.launch, Evt.newContext, Evt.newPage, Evt.gotoMain (jsStr req.url),
        Evt.waitForSel ffWaitSelector] ++
       (ffFillLoop env (jsOr req.name ffDefaultName) ffNameSelectors ++
        ffFillLoop env (jsOr req.email ffDefaultEmail) ffEmailSelectors ++
        ffFillLoop env (jsOr req.message ffDefaultMessage) ffMessageSelectors ++
        ffSubmitLoop env ffSubmitSelectors ++ [Evt.waitMs 3000, Evt.screenshot]) ++
       [Evt.closeBrowser]) := by
    unfold fillFormPipeline
    rw [h1, h2, h3, h4, h5, hshot, h7]
    simp [stepE]
  have hh : fillFormHandler env req =
      (some { status := 200, success := some true, url := some (jsStr req.url),
              timestamp := some env.nowStr, message := some "Form submitted successfully" },
       [Evt.launch, Evt.newContext, Evt.newPage, Evt.gotoMain (jsStr req.url),
        Evt.waitForSel ffWaitSelector] ++
       (ffFillLoop env (jsOr req.name ffDefaultName) ffNameSelectors ++
        ffFillLoop env (jsOr req.email ffDefaultEmail) ffEmailSelectors ++
        ffFillLoop env (jsOr req.message ffDefaultMessage) ffMessageSelectors ++
        ffSubmitLoop env ffSubmitSelectors ++ [Evt.waitMs 3000, Evt.screenshot]) ++
       [Evt.closeBrowser]) := by
    unfold fillFormHandler
    rw [hu]
    simp only [if_true]
    rw [hp]
  rw [hh]
  refine ⟨rfl, ?_⟩
  intro a ha
  have hQname : ∀ t ∈ ffNameSelectors, t ≠ captchaSelector := by decide
  have hQemail : ∀ t ∈ ffEmailSelectors, t ≠ captchaSelector := by decide
  have hQmsg : ∀ t ∈ ffMessageSelectors, t ≠ captchaSelector := by decide
  have hQsub : ∀ t ∈ ffSubmitSelectors, t ≠ captchaSelector := by decide
  simp only [List.mem_append, List.mem_cons, List.mem_singleton] at ha
  rcases ha with ((rfl | rfl | rfl | rfl | rfl | hfalse) | ((((hn | he) | hm) | hs) | hw)) | hc
  · exact ⟨by simp, by simp⟩
  · exact ⟨by simp, by simp⟩
  · exact ⟨by simp, by simp⟩
  · exact ⟨by simp, by simp⟩
  · exact ⟨by simp, by simp⟩
  · simp at hfalse
  · rcases ffFillLoop_shape env (jsOr req.name ffDefaultName) ffNameSelectors a hn with
      ⟨s, hsm, rfl⟩ | ⟨e, rfl⟩
    · exact ⟨by simp, by simp [hQname s hsm]⟩
    · exact ⟨by simp, by simp⟩
  · rcases ffFillLoop_shape env (jsOr req.email ffDefaultEmail) ffEmailSelectors a he with
      ⟨s, hsm, rfl⟩ | ⟨e, rfl⟩
    · exact ⟨by simp, by simp [hQemail s hsm]⟩
    · exact ⟨by simp, by simp⟩
  · rcases ffFillLoop_shape env (jsOr req.message ffDefaultMessage) ffMessageSelectors a hm with
      ⟨s, hsm, rfl⟩ | ⟨e, rfl⟩
    · exact ⟨by simp, by simp [hQmsg s hsm]⟩
    · exact ⟨by simp, by simp⟩
  · rcases ffSubmitLoop_shape env ffSubmitSelectors a hs with ⟨s, hsm, rfl⟩ | ⟨e, rfl⟩
    · exact ⟨by simp, by simp [hQsub s hsm]⟩
    · exact ⟨by simp, by simp⟩
  · rcases hw with rfl | hw2
    · exact ⟨by simp, by simp⟩
    · rcases hw2 with rfl | hfalse2
      · exact ⟨by simp, by simp⟩
      · simp at hfalse2
  · rcases hc with rfl | hfalse
    · exact ⟨by simp, by simp⟩
    · simp at hfalse

/-- Witness for C10 at the all-succeeding oracle with no matching elements:
the fill and click loops find nothing, yet the response is the unconditional
success. -/
theorem C10_fillform_unconditional_success_witness :
    (fillFormHandler envAllOk reqBasic).1 =
      some { status := 200, success := some true, url := some "http://example.com/",
             timestamp := some "t0", message := some "Form submitted successfully" } ∧
    ((fillFormHandler envAllOk reqBasic).2.all
      fun a => !(a == Evt.getContent) && !(a == Evt.query captchaSelector)) = true := by
  have h := C10_fillform_unconditional_success envAllOk reqBasic (by decide) rfl rfl rfl rfl rfl
    ⟨"img", rfl⟩ rfl
  refine ⟨h.1, ?_⟩
  apply List.all_eq_true.mpr
  intro a ha
  have hne := h.2 a ha
  have e1 : (a == Evt.getContent) = false := beq_eq_false_iff_ne.mpr hne.1
  have e2 : (a == Evt.query captchaSelector) = false := beq_eq_false_iff_ne.mpr hne.2
  rw [e1, e2]
  rfl

/-! ### List lemmas for the URL model -/

theorem takeWhile_all_eq {p : Char → Bool} :
    ∀ l : List Char, (∀ c ∈ l, p c = true) → l.takeWhile p = l := by
  intro l
  induction l with
  | nil => intro _; rfl
  | cons a t ih =>
    intro h
    rw [List.takeWhile_cons, if_pos (h a (by simp)), ih fun c hc => h c (by simp [hc])]

theorem dropWhile_all_eq {p : Char → Bool} :
    ∀ l : List Char, (∀ c ∈ l, p c = true) → l.dropWhile p = [] := by
  intro l
  induction l with
  | nil => intro _; rfl
  | cons a t ih =>
    intro h
    rw [List.dropWhile_cons, if_pos (h a (by simp)), ih fun c hc => h c (by simp [hc])]

theorem takeWhile_append_stop {p : Char → Bool} :
    ∀ l₁ l₂ : List Char, (∀ c ∈ l₁, p c = true) →
      (∀ c, l₂.head? = some c → p c = false) → (l₁ ++ l₂).takeWhile p = l₁ := by
  intro l₁
  induction l₁ with
  | nil =>
    intro l₂ _ h2
    cases l₂ with
    | nil => rfl
    | cons c t => simp [List.takeWhile_cons, h2 c rfl]
  | cons a t ih =>
    intro l₂ h1 h2
    simp only [List.cons_append]
    rw [List.takeWhile_cons, if_pos (h1 a (by simp)),
      ih l₂ (fun c hc => h1 c (by simp [hc])) h2]

theorem dropWhile_append_stop {p : Char → Bool} :
    ∀ l₁ l₂ : List Char, (∀ c ∈ l₁, p c = true) →
      (∀ c, l₂.head? = some c → p c = false) → (l₁ ++ l₂).dropWhile p = l₂ := by
  intro l₁
  induction l₁ with
  | nil =>
    intro l₂ _ h2
    cases l₂ with
    | nil => rfl
    | cons c t => simp [List.dropWhile_cons, h2 c rfl]
  | cons a t ih =>
    intro l₂ h1 h2
    simp only [List.cons_append]
    rw [List.dropWhile_cons, if_pos (h1 a (by simp)),
      ih l₂ (fun c hc => h1 c (by simp [hc])) h2]

theorem splitAtChar_append (c : Char) :
    ∀ l₁ l₂ : List Char, (∀ x ∈ l₁, x ≠ c) →
      splitAtChar c (l₁ ++ c :: l₂) = some (l₁, l₂) := by
  intro l₁
  induction l₁ with
  | nil => intro l₂ _; simp [splitAtChar]
  | cons a t ih =>
    intro l₂ h
    simp only [List.cons_append, splitAtChar]
    rw [if_neg (h a (by simp))]
    simp only [List.append_eq]
    rw [ih l₂ fun x hx => h x (by simp [hx])]

theorem WFurl_build (sch host path : List Char) (q f : Option (List Char))
    (hsch : sch = "http".toList ∨ sch = "https".toList)
    (hhost : host ≠ [])
    (hhostc : ∀ c ∈ host, hostChar c = true)
    (hhead : path.head? = some '/')
    (hpathc : ∀ c ∈ path, pathChar c = true)
    (hdots : noDots path = true)
    (hq : ∀ q2, q = some q2 → ∀ c ∈ q2, qfChar c = true)
    (hf : ∀ f2, f = some f2 → ∀ c ∈ f2, qfChar c = true) :
    WFurl ⟨sch, host, path, q, f⟩ = true := by
  have hB : (host == []) = false := beq_eq_false_iff_ne.mpr hhost
  simp only [WFurl, Bool.and_eq_true]
  refine ⟨⟨⟨⟨⟨⟨⟨?_, ?_⟩, ?_⟩, ?_⟩, ?_⟩, ?_⟩, ?_⟩, ?_⟩
  · rcases hsch with rfl | rfl <;> simp
  · simp [hB]
  · exact List.all_eq_true.mpr hhostc
  · simp [hhead]
  · exact List.all_eq_true.mpr hpathc
  · exact hdots
  · cases q with
    | none => rfl
    | some q2 => exact List.all_eq_true.mpr (hq q2 rfl)
  · cases f with
    | none => rfl
    | some f2 => exact List.all_eq_true.mpr (hf f2 rfl)

theorem normPath_head (p : List Char) (h : p = [] ∨ p.head? = some '/') :
    (normPath p).head? = some '/' := by
  by_cases hp : p = []
  · simp [normPath, hp]
  · rw [normPath, if_neg hp]
    rcases h with h | h
    · exact absurd h hp
    · exact h

theorem normPath_chars (p : List Char) (h : ∀ c ∈ p, pathChar c = true) :
    ∀ c ∈ normPath p, pathChar c = true := by
  by_cases hp : p = []
  · simp [normPath, hp]
    decide
  · rw [normPath, if_neg hp]
    exact h

theorem parseAbsL_wf : ∀ cs u, parseAbsL cs = some u → WFurl u = true := by
  intro cs u h
  unfold parseAbsL at h
  split at h
  · simp at h
  · rename_i sch rest heq
    unfold parseAfterScheme at h
    split at h
    · rename_i hsch
      unfold parseAuthority at h
      split at h
      · rename_i rest2
        unfold parseHostPath at h
        split at h
        · simp at h
        · rename_i hhostne
          split at h
          · rename_i hpguard
            split at h
            · rename_i hdots
              have hhostc : ∀ c ∈ rest2.takeWhile hostChar, hostChar c = true :=
                fun c hc => List.mem_takeWhile_imp hc
              have hheadN := normPath_head _ hpguard
              have hpathcN := normPath_chars ((rest2.dropWhile hostChar).takeWhile pathChar)
                fun c hc => List.mem_takeWhile_imp hc
              unfold parseQF at h
              split at h
              · simp only [Option.some.injEq] at h
                subst h
                exact WFurl_build _ _ _ _ _ hsch hhostne hhostc hheadN hpathcN hdots
                  (fun q2 h2 => nomatch h2) (fun f2 h2 => nomatch h2)
              · rename_i r5 heq4
                split at h
                · simp only [Option.some.injEq] at h
                  subst h
                  exact WFurl_build _ _ _ _ _ hsch hhostne hhostc hheadN hpathcN hdots
                    (fun q2 h2 => by
                      injection h2 with h3
                      subst h3
                      exact fun c hc => List.mem_takeWhile_imp hc)
                    (fun f2 h2 => nomatch h2)
                · rename_i f heq5
                  split at h
                  · rename_i hfq
                    simp only [Option.some.injEq] at h
                    subst h
                    exact WFurl_build _ _ _ _ _ hsch hhostne hhostc hheadN hpathcN hdots
                      (fun q2 h2 => by
                        injection h2 with h3
                        subst h3
                        exact fun c hc => List.mem_takeWhile_imp hc)
                      (fun f2 h2 => by
                        injection h2 with h3
                        subst h3
                        exact List.all_eq_true.mp hfq)
                  · simp at h
                · simp at h
              · rename_i f heq4
                split at h
                · rename_i hfq
                  simp only [Option.some.injEq] at h
                  subst h
                  exact WFurl_build _ _ _ _ _ hsch hhostne hhostc hheadN hpathcN hdots
                    (fun q2 h2 => nomatch h2)
                    (fun f2 h2 => by
                      injection h2 with h3
                      subst h3
                      exact List.all_eq_true.mp hfq)
                · simp at h
              · simp at h
            · simp at h
          · simp at h
      · simp at h
    · simp at h

theorem parse_reduce (sch host t qf : List Char)
    (hsch : sch = "http".toList ∨ sch = "https".toList)
    (hostne : host ≠ []) (hostc : ∀ c ∈ host, hostChar c = true)
    (pathc : ∀ c ∈ '/' :: t, pathChar c = true)
    (hdots : noDots ('/' :: t) = true)
    (hqf : ∀ c, qf.head? = some c → c = '?' ∨ c = '#') :
    parseAbsL (sch ++ ':' :: '/' :: '/' :: (host ++ ('/' :: (t ++ qf)))) =
      parseQF sch host ('/' :: t) qf := by
  have hns : ∀ x ∈ sch, x ≠ ':' := by rcases hsch with rfl | rfl <;> decide
  have hsplit := splitAtChar_append ':' sch ('/' :: '/' :: (host ++ ('/' :: (t ++ qf)))) hns
  have hstop1 : ∀ c, ('/' :: (t ++ qf)).head? = some c → hostChar c = false := by
    intro c hc
    have hc2 : c = '/' := by simpa [eq_comm] using hc
    subst hc2
    decide
  have htw1 : (host ++ ('/' :: (t ++ qf))).takeWhile hostChar = host :=
    takeWhile_append_stop host _ hostc hstop1
  have hdw1 : (host ++ ('/' :: (t ++ qf))).dropWhile hostChar = '/' :: (t ++ qf) :=
    dropWhile_append_stop host _ hostc hstop1
  have hstop2 : ∀ c, qf.head? = some c → pathChar c = false := by
    intro c hc
    rcases hqf c hc with rfl | rfl <;> decide
  have htw2 : List.takeWhile pathChar ('/' :: (t ++ qf)) = '/' :: t := by
    have h0 := takeWhile_append_stop ('/' :: t) qf pathc hstop2
    simpa using h0
  have hdw2 : List.dropWhile pathChar ('/' :: (t ++ qf)) = qf := by
    have h0 := dropWhile_append_stop ('/' :: t) qf pathc hstop2
    simpa using h0
  have hnorm : normPath ('/' :: t) = '/' :: t := by simp [normPath]
  unfold parseAbsL
  rw [hsplit]
  show parseAfterScheme sch ('/' :: '/' :: (host ++ ('/' :: (t ++ qf)))) =
    parseQF sch host ('/' :: t) qf
  unfold parseAfterScheme
  rw [if_pos hsch]
  show parseHostPath sch (host ++ ('/' :: (t ++ qf))) = parseQF sch host ('/' :: t) qf
  unfold parseHostPath
  rw [htw1, hdw1, if_neg hostne, htw2, hdw2, hnorm]
  rw [if_pos (Or.inr rfl : ('/' :: t : List Char) = [] ∨
    (('/' : Char) :: t).head? = some '/'), if_pos hdots]

theorem parse_serialize (u : URLRec) (h : WFurl u = true) :
    parseAbsL (serializeL u) = some u := by
  obtain ⟨sch, host, path, q, f⟩ := u
  simp only [WFurl, Bool.and_eq_true] at h
  obtain ⟨⟨⟨⟨⟨⟨⟨hA, hB⟩, hC⟩, hD⟩, hE⟩, hF⟩, hG⟩, hH⟩ := h
  have hsch : sch = "http".toList ∨ sch = "https".toList := by simpa using hA
  have hostne : host ≠ [] := by simpa using hB
  have hostc : ∀ c ∈ host, hostChar c = true := List.all_eq_true.mp hC
  have hhead : path.head? = some '/' := by simpa using hD
  have pathc0 : ∀ c ∈ path, pathChar c = true := List.all_eq_true.mp hE
  cases path with
  | nil => simp at hhead
  | cons a t =>
    have ha : a = '/' := by simpa using hhead
    subst ha
    cases q with
    | none =>
      cases f with
      | none =>
        have hred := parse_reduce sch host t [] hsch hostne hostc pathc0 hF
          (fun c hc => nomatch hc)
        simp only [List.append_nil] at hred
        have hser : serializeL ⟨sch, host, '/' :: t, none, none⟩ =
            sch ++ ':' :: '/' :: '/' :: (host ++ '/' :: t) := by
          simp [serializeL]
        rw [hser, hred]
        simp [parseQF]
      | some f2 =>
        simp only at hH
        have hf2 : f2.all qfChar = true := hH
        have hred := parse_reduce sch host t ('#' :: f2) hsch hostne hostc pathc0 hF
          (fun c hc => Or.inr (by simpa [eq_comm] using hc))
        have hser : serializeL ⟨sch, host, '/' :: t, none, some f2⟩ =
            sch ++ ':' :: '/' :: '/' :: (host ++ '/' :: (t ++ '#' :: f2)) := by
          simp [serializeL]
        rw [hser, hred]
        simp [parseQF, hf2]
    | some q2 =>
      simp only at hG
      have hq2all : ∀ c ∈ q2, qfChar c = true := List.all_eq_true.mp hG
      have htk : q2.takeWhile qfChar = q2 := takeWhile_all_eq q2 hq2all
      have hdr : q2.dropWhile qfChar = [] := dropWhile_all_eq q2 hq2all
      cases f with
      | none =>
        have hred := parse_reduce sch host t ('?' :: q2) hsch hostne hostc pathc0 hF
          (fun c hc => Or.inl (by simpa [eq_comm] using hc))
        have hser : serializeL ⟨sch, host, '/' :: t, some q2, none⟩ =
            sch ++ ':' :: '/' :: '/' :: (host ++ '/' :: (t ++ '?' :: q2)) := by
          simp [serializeL]
        rw [hser, hred]
        simp [parseQF, htk, hdr]
      | some f2 =>
        simp only at hH
        have hf2 : f2.all qfChar = true := hH
        have htk2 : (q2 ++ '#' :: f2).takeWhile qfChar = q2 :=
          takeWhile_append_stop q2 ('#' :: f2) hq2all
            (fun c hc => by
              have hc2 : c = '#' := by simpa [eq_comm] using hc
              subst hc2
              decide)
        have hdr2 : (q2 ++ '#' :: f2).dropWhile qfChar = '#' :: f2 :=
          dropWhile_append_stop q2 ('#' :: f2) hq2all
            (fun c hc => by
              have hc2 : c = '#' := by simpa [eq_comm] using hc
              subst hc2
              decide)
        have hred := parse_reduce sch host t ('?' :: (q2 ++ '#' :: f2)) hsch hostne hostc
          pathc0 hF (fun c hc => Or.inl (by simpa [eq_comm] using hc))
        have hser : serializeL ⟨sch, host, '/' :: t, some q2, some f2⟩ =
            sch ++ ':' :: '/' :: '/' :: (host ++ '/' :: (t ++ '?' :: (q2 ++ '#' :: f2))) := by
          simp [serializeL]
        rw [hser, hred]
        simp [parseQF, htk2, hdr2, hf2]

theorem resolveCore_wf (b : URLRec) (cs : List Char) (u : URLRec)
    (h : resolveCore b cs = some u) : WFurl u = true := by
  unfold resolveCore at h
  split at h
  · rename_i u2 heq
    have hu : u2 = u := by simpa using h
    subst hu
    exact parseAbsL_wf _ _ heq
  · split at h
    · simp at h
    · exact parseAbsL_wf _ _ h

theorem safeUrl_eval (base href : String) (b : URLRec)
    (hb : parseAbsL base.toList = some b) :
    safeUrl base href = (resolveCore b href.toList).map serializeStr := by
  unfold safeUrl
  rw [hb]

theorem safeUrl_none (base href : String) (hb : parseAbsL base.toList = none) :
    safeUrl base href = none := by
  unfold safeUrl
  rw [hb]

/-- C7 (amended): URL resolution is idempotent — any successful output of
`safeUrl` is a fixed point, so resolving an already-resolved (normalised)
absolute href returns it unchanged; an absolute href that is already in
normal form is returned unchanged; and a malformed href (e.g. `http://`,
which has no host) yields `null` for every base, `safeUrl` being total (the
`catch` arm is the `none` result, never a thrown exception). -/
theorem C7_safeUrl (base href r : String) :
    (safeUrl base href = some r → safeUrl base r = some r) ∧
    (∀ u b, parseAbsL base.toList = some b → parseAbsL href.toList = some u →
      serializeStr u = href → safeUrl base href = some href) ∧
    safeUrl base "http://" = none := by
  refine ⟨?_, ?_, ?_⟩
  · intro h
    cases hb : parseAbsL base.toList with
    | none =>
      rw [safeUrl_none base href hb] at h
      simp at h
    | some b =>
      rw [safeUrl_eval base href b hb] at h
      obtain ⟨u, hu, hru⟩ := Option.map_eq_some'.mp h
      have hwf := resolveCore_wf b href.toList u hu
      subst hru
      rw [safeUrl_eval base (serializeStr u) b hb]
      have htl : (serializeStr u).toList = serializeL u := rfl
      rw [htl]
      unfold resolveCore
      rw [parse_serialize u hwf]
      rfl
  · intro u b hb hu hserial
    rw [safeUrl_eval base href b hb]
    unfold resolveCore
    rw [hu]
    show some (serializeStr u) = some href
    rw [hserial]
  · cases hb : parseAbsL base.toList with
    | none => exact safeUrl_none base "http://" hb
    | some b =>
      rw [safeUrl_eval base "http://" b hb]
      unfold resolveCore
      rw [show parseAbsL ("http://".toList) = none from by decide]
      rw [show hasSchemeShape ("http://".toList) = true from by decide]
      simp

/-- Witness for the amended C7: a resolved URL is a fixed point, a
normalised absolute href passes through unchanged regardless of the base,
and `http://` is rejected as malformed. -/
theorem C7_safeUrl_witness :
    safeUrl "http://a.com/" "http://a.com/" = some "http://a.com/" ∧
    safeUrl "http://b.org/p" "http://a.com/q" = some "http://a.com/q" ∧
    safeUrl "http://a.com/" "http://" = none := by
  refine ⟨?_, ?_, ?_⟩
  · exact (C7_safeUrl "http://a.com/" "http://a.com" "http://a.com/").1 (by decide)
  · exact (C7_safeUrl "http://b.org/p" "http://a.com/q" "z").2.1
      ⟨"http".toList, "a.com".toList, "/q".toList, none, none⟩
      ⟨"http".toList, "b.org".toList, "/p".toList, none, none⟩
      (by decide) (by decide) (by decide)
  · exact (C7_safeUrl "http://a.com/" "x" "y").2.2

/-- Counterexample to C7 as stated: `http://example.com` is an already
absolute href, yet resolution returns the normalised `http://example.com/`
(the URL constructor serialises an empty path as `/`), not the href
unchanged. -/
theorem C7_counterexample :
    safeUrl "http://example.com/" "http://example.com" = some "http://example.com/" ∧
    ¬ safeUrl "http://example.com/" "http://example.com" = some "http://example.com" := by
  exact ⟨by decide, by decide⟩
